import Mathlib

/-!
Shallow embedding of the enrichment pipeline of the `equitable` repository:
`parsers/ingest_farmers_markets.py` (row normalization with content-addressed
dedupe keys, the cached/rate-limited/retrying geocoding client, application of
geocode results, the batch orchestrator) and `parsers/neighborhood_mapper.py`
(point-in-polygon neighborhood assignment).

Embedding conventions:
* Python strings are `String`; nullable values are `Option`.
* `pandas` missing values (`NaN`/`None`) are `Option.none`; a raw CSV row is an
  association list `List (String × Option String)` (keys in column order).
* IEEE-754 doubles are idealized as rationals `ℚ`; the float literal `1e-12`
  is rendered as `1 / 10 ^ 12`.
* Network, MongoDB and the clock are explicit oracles / recorded effects:
  `urllib.request.urlopen` becomes an oracle `Nat → NetOutcome` (outcome of
  each attempt), the geocode cache collection becomes a map
  `String → Option CacheEntry`, `time.sleep` durations and rate-limiter waits
  are recorded in an `Effects` structure instead of being performed.
* String helpers (`strip`, `lower`, `title`, splitting) are implemented over
  `List Char` for kernel reducibility; they agree with the Python/ASCII
  behavior on the data this pipeline handles.
-/

namespace Equitable

/-- Python `str.strip()`: drop whitespace from both ends. -/
def pyStrip (s : String) : String :=
  ⟨((s.data.dropWhile Char.isWhitespace).reverse.dropWhile Char.isWhitespace).reverse⟩

/-- Python `str.lower()` (ASCII). -/
def pyLower (s : String) : String := ⟨s.data.map Char.toLower⟩

/-- `startsWithL pat l` = `l` starts with `pat`. -/
def startsWithL : List Char → List Char → Bool
  | [], _ => true
  | _ :: _, [] => false
  | a :: as, b :: bs => a = b && startsWithL as bs

/-- Substring containment over char lists (Python `in` on `str`). -/
def infixL (sub : List Char) : List Char → Bool
  | [] => sub.isEmpty
  | c :: t => startsWithL sub (c :: t) || infixL sub t

/-- `ingest_farmers_markets.clean_text`: `None`/`NaN` ↦ `None`, else strip;
empty after strip ↦ `None`. -/
def clean_text : Option String → Option String
  | none => none
  | some v => let t := pyStrip v; if t = "" then none else some t

/-- Split a char list into maximal runs of non-separator characters. -/
def splitRuns (sep : Char → Bool) (l : List Char) : List (List Char) :=
  let r := l.foldr
    (fun c (acc : List Char × List (List Char)) =>
      if sep c then ([], if acc.1 = [] then acc.2 else acc.1 :: acc.2)
      else (c :: acc.1, acc.2)) ([], [])
  if r.1 = [] then r.2 else r.1 :: r.2

/-- `ingest_farmers_markets.collapse_spaces`: `re.sub(r"\s+", " ", text).strip()`,
i.e. whitespace runs collapse to single spaces and the ends are trimmed. -/
def collapse_spaces (s : String) : String :=
  String.intercalate " " ((splitRuns Char.isWhitespace s.data).map (fun w => (⟨w⟩ : String)))

/-- Python `str.title()` (ASCII): uppercase a letter that follows a non-letter,
lowercase a letter that follows a letter. -/
def titleChars : Bool → List Char → List Char
  | _, [] => []
  | prevAlpha, c :: rest =>
    (if c.isAlpha then (if prevAlpha then c.toLower else c.toUpper) else c) ::
      titleChars c.isAlpha rest

/-- Python `str.title()` over a whole string. -/
def pyTitle (s : String) : String := ⟨titleChars false s.data⟩

/-- `ingest_farmers_markets.title_case_city`. -/
def title_case_city : Option String → Option String
  | none => none
  | some city => if city = "" then none else some (pyTitle (collapse_spaces city))

/-- The digits of a string (`re.sub(r"\D", "", raw)`). -/
def digitsOf (s : String) : String := ⟨s.data.filter Char.isDigit⟩

/-- Python `str.zfill` for digit strings: left-pad with `'0'` to width `n`. -/
def zfill (n : Nat) (s : String) : String :=
  ⟨List.replicate (n - s.data.length) '0' ++ s.data⟩

/-- `ingest_farmers_markets.normalize_zip`. -/
def normalize_zip (v : Option String) : Option String :=
  match clean_text v with
  | none => none
  | some raw =>
    let digits := digitsOf raw
    if digits = "" then none
    else if 5 ≤ digits.data.length then some (⟨digits.data.take 5⟩ : String)
    else some (zfill 5 digits)

/-- `ingest_farmers_markets.normalize_phone`. -/
def normalize_phone (v : Option String) : Option String :=
  match clean_text v with
  | none => none
  | some raw =>
    let digits := digitsOf raw
    if digits.data.length = 10 then some ("+1" ++ digits)
    else if digits.data.length = 11 ∧ digits.data.head? = some '1' then
      some ("+" ++ digits)
    else if digits ≠ "" then some ("digits:" ++ digits ++ ";raw:" ++ raw)
    else some raw

/-- `ingest_farmers_markets.normalize_website`. -/
def normalize_website (v : Option String) : Option String :=
  match clean_text v with
  | none => none
  | some raw =>
    if startsWithL "www.".data (pyLower raw).data then some ("https://" ++ raw)
    else some raw

/-- `ingest_farmers_markets.canonicalize_key_part`: `None ↦ ""`, else
collapse whitespace and lowercase. -/
def canonicalize_key_part : Option String → String
  | none => ""
  | some v => pyLower (collapse_spaces v)

/-! ### SHA-256 (`hashlib.sha256(...).hexdigest()`)

A standard executable SHA-256 over `Nat` with explicit `% 2 ^ 32` wrap-around.
The round constants are derived, as in FIPS 180-4, from the fractional parts
of the cube/square roots of the first 64 primes. -/

/-- Truncate to 32 bits. -/
def u32 (n : Nat) : Nat := n % 4294967296

/-- Rotate a 32-bit word right by `n`. -/
def rotr32 (x n : Nat) : Nat := u32 ((x >>> n) ||| (x <<< (32 - n)))

/-- The first 64 primes (sources of the SHA-256 constants). -/
def sha256Primes : List Nat :=
  [2, 3, 5, 7, 11, 13, 17, 19, 23, 29, 31, 37, 41, 43, 47, 53,
   59, 61, 67, 71, 73, 79, 83, 89, 97, 101, 103, 107, 109, 113, 127, 131,
   137, 139, 149, 151, 157, 163, 167, 173, 179, 181, 191, 193, 197, 199, 211, 223,
   227, 229, 233, 239, 241, 251, 257, 263, 269, 271, 277, 281, 283, 293, 307, 311]

/-- Binary search step for the integer cube root. -/
def cbrtAux (n : Nat) : Nat → Nat → Nat → Nat
  | 0, lo, _ => lo
  | fuel + 1, lo, hi =>
    if lo + 1 < hi then
      let mid := (lo + hi) / 2
      if mid ^ 3 ≤ n then cbrtAux n fuel mid hi else cbrtAux n fuel lo mid
    else lo

/-- Integer cube root (largest `x` with `x ^ 3 ≤ n`). -/
def natCbrt (n : Nat) : Nat := cbrtAux n 200 0 (n + 1)

/-- SHA-256 round constants `K`. -/
def sha256K : List Nat := sha256Primes.map (fun p => u32 (natCbrt (p <<< 96)))

/-- SHA-256 initial hash values `H⁰`. -/
def sha256H0 : List Nat := (sha256Primes.take 8).map (fun p => u32 (Nat.sqrt (p <<< 64)))

/-- 32-bit complement. -/
def not32 (x : Nat) : Nat := 4294967295 ^^^ x

/-- SHA-256 `Ch`. -/
def sha256Ch (e f g : Nat) : Nat := (e &&& f) ^^^ (not32 e &&& g)

/-- SHA-256 `Maj`. -/
def sha256Maj (a b c : Nat) : Nat := (a &&& b) ^^^ (a &&& c) ^^^ (b &&& c)

/-- SHA-256 `Σ₀`. -/
def bigSigma0 (a : Nat) : Nat := rotr32 a 2 ^^^ rotr32 a 13 ^^^ rotr32 a 22

/-- SHA-256 `Σ₁`. -/
def bigSigma1 (e : Nat) : Nat := rotr32 e 6 ^^^ rotr32 e 11 ^^^ rotr32 e 25

/-- SHA-256 `σ₀`. -/
def smallSigma0 (x : Nat) : Nat := rotr32 x 7 ^^^ rotr32 x 18 ^^^ (x >>> 3)

/-- SHA-256 `σ₁`. -/
def smallSigma1 (x : Nat) : Nat := rotr32 x 17 ^^^ rotr32 x 19 ^^^ (x >>> 10)

/-- UTF-8 encoding of one character (Python `str.encode("utf-8")`). -/
def utf8Bytes (c : Char) : List Nat :=
  let n := c.toNat
  if n < 128 then [n]
  else if n < 2048 then [192 + n / 64, 128 + n % 64]
  else if n < 65536 then [224 + n / 4096, 128 + (n / 64) % 64, 128 + n % 64]
  else [240 + n / 262144, 128 + (n / 4096) % 64, 128 + (n / 64) % 64, 128 + n % 64]

/-- UTF-8 bytes of a string. -/
def strUtf8 (s : String) : List Nat := s.data.foldr (fun c acc => utf8Bytes c ++ acc) []

/-- Big-endian byte rendering of `n` in `w` bytes. -/
def beBytes : Nat → Nat → List Nat
  | 0, _ => []
  | w + 1, n => beBytes w (n / 256) ++ [n % 256]

/-- SHA-256 message padding. -/
def sha256Pad (msg : List Nat) : List Nat :=
  let L := msg.length
  msg ++ 128 :: List.replicate ((119 - L % 64) % 64) 0 ++ beBytes 8 (8 * L)

/-- Split a byte list into 64-byte blocks. -/
def toBlocks (l : List Nat) : List (List Nat) :=
  if h : l = [] then [] else l.take 64 :: toBlocks (l.drop 64)
termination_by l.length
decreasing_by
  have : 0 < l.length := List.length_pos.mpr h
  simp only [List.length_drop]
  omega

/-- Pack bytes into big-endian 32-bit words. -/
def bytesToWords : List Nat → List Nat
  | b0 :: b1 :: b2 :: b3 :: rest =>
    (b0 * 16777216 + b1 * 65536 + b2 * 256 + b3) :: bytesToWords rest
  | _ => []

/-- Extend the 16-word schedule by `fuel` additional words. -/
def extendSchedule (w : List Nat) : Nat → List Nat
  | 0 => w
  | f + 1 =>
    let i := w.length
    extendSchedule
      (w ++ [u32 (smallSigma1 (w.getD (i - 2) 0) + w.getD (i - 7) 0 +
        smallSigma0 (w.getD (i - 15) 0) + w.getD (i - 16) 0)]) f

/-- One SHA-256 compression round on the 8-word working state. -/
def compressRound (st : List Nat) (kw : Nat × Nat) : List Nat :=
  match st with
  | [a, b, c, d, e, f, g, h] =>
    let t1 := u32 (h + bigSigma1 e + sha256Ch e f g + kw.1 + kw.2)
    let t2 := u32 (bigSigma0 a + sha256Maj a b c)
    [u32 (t1 + t2), a, b, c, u32 (d + t1), e, f, g]
  | other => other

/-- Process one 64-byte block. -/
def processBlock (hs : List Nat) (block : List Nat) : List Nat :=
  let w := extendSchedule (bytesToWords block) 48
  let final := (sha256K.zip w).foldl compressRound hs
  (hs.zip final).map (fun p => u32 (p.1 + p.2))

/-- SHA-256 digest (eight 32-bit words) of a byte list. -/
def sha256Words (msg : List Nat) : List Nat :=
  (toBlocks (sha256Pad msg)).foldl processBlock sha256H0

/-- Lowercase hex digit. -/
def hexDigit (n : Nat) : Char := if n < 10 then Char.ofNat (48 + n) else Char.ofNat (87 + n)

/-- Lowercase 8-digit hex rendering of a 32-bit word. -/
def word8Hex (n : Nat) : List Char :=
  (List.range 8).map (fun i => hexDigit ((n >>> (28 - 4 * i)) % 16))

/-- `hashlib.sha256(s.encode("utf-8")).hexdigest()`. -/
def sha256HexOfString (s : String) : String :=
  ⟨(sha256Words (strUtf8 s)).foldr (fun w acc => word8Hex w ++ acc) []⟩

/-- `ingest_farmers_markets.sha256_hash`: canonicalize each part, join with
`"|"`, and hash. -/
def sha256_hash (parts : List (Option String)) : String :=
  sha256HexOfString (String.intercalate "|" (parts.map canonicalize_key_part))

/-! ### Row normalization (`ingest_farmers_markets.normalize_row`) -/

/-- A raw CSV row: column name to cell, `none` for `NaN`/`None`. -/
abbrev RawRow : Type := List (String × Option String)

/-- Key normalization used by `get_field`:
`re.sub(r"[^a-z0-9]+", "", str(k).lower())`. -/
def keyNorm (k : String) : String :=
  ⟨(pyLower k).data.filter (fun c => c.isLower || c.isDigit)⟩

/-- Presence-aware lookup in the normalized-key dict built by `get_field`.
A Python dict comprehension keeps the LAST entry for a duplicated key, so we
scan the reversed row.  Returns `some v` when the normalized key is present
(`v` itself may be `none` for a `NaN` cell), `none` when absent. -/
def lookupNorm (row : RawRow) (nk : String) : Option (Option String) :=
  (row.reverse.find? (fun kv => keyNorm kv.1 = nk)).map (·.2)

/-- `ingest_farmers_markets.get_field`: first candidate whose normalized key is
present wins (even when its cell is `NaN`). -/
def get_field (row : RawRow) : List String → Option String
  | [] => none
  | c :: rest =>
    match lookupNorm row (keyNorm c) with
    | some v => v
    | none => get_field row rest

/-- Python `\w` (ASCII): letters, digits, underscore. -/
def isWordChar (c : Char) : Bool := c.isAlphanum || c = '_'

/-- `re.search(r"\bcsa\b", s)` on an (already lowercased) string: an occurrence
of `"csa"` with a word boundary on both sides.  `prev` is the character just
before the scan position. -/
def csaLoop : Option Char → List Char → Bool
  | prev, c1 :: c2 :: c3 :: rest =>
    if (c1 == 'c' && c2 == 's' && c3 == 'a' &&
        prev.all (fun p => ! isWordChar p) &&
        (rest.head?).all (fun n => ! isWordChar n)) then
      true
    else csaLoop (some c1) (c2 :: c3 :: rest)
  | _, _ => false

/-- Whole-word `csa` search. -/
def hasWordCsa (s : String) : Bool := csaLoop none s.data

/-- Substring test (Python `sub in s`). -/
def containsSubstr (s sub : String) : Bool := infixL sub.data s.data

/-- `ingest_farmers_markets.derive_subtype`. -/
def derive_subtype (name : String) (description : Option String) : String :=
  let n := pyLower name
  let d := pyLower (description.getD "")
  if hasWordCsa n || hasWordCsa d || containsSubstr n "pick-up" || containsSubstr n "pick up" ||
      containsSubstr d "pick-up" || containsSubstr d "pick up" then "csa_pickup"
  else if containsSubstr n "mobile market" then "mobile_market"
  else if containsSubstr n "farmstand" || containsSubstr d "farmstand" then "farmstand"
  else "farmers_market"

/-- Module constant `SOURCE_NAME`. -/
def SOURCE_NAME : String := "MassGrown"

/-- Module constant `SOURCE_FILE`. -/
def SOURCE_FILE : String := "farmers_market.csv"

/-- Module constant `BOSTON_BOUNDS` (viewport bias). -/
def BOSTON_BOUNDS : String := "42.20,-71.30|42.45,-70.95"

/-- Module constant `STORE_MODE_COORDS`. -/
def STORE_MODE_COORDS : String := "store_coords"

/-- Module constant `STORE_MODE_PLACE_ID_ONLY`. -/
def STORE_MODE_PLACE_ID_ONLY : String := "store_place_id_only"

/-- The `address` sub-document of a canonical record. -/
structure Address where
  line1 : String
  city_raw : Option String
  city_norm : Option String
  state : String
  zip : Option String
  formatted_address : Option String
  deriving Repr, DecidableEq

/-- The `geocoding` sub-document of a canonical record. -/
structure Geocoding where
  provider : String
  status : String
  place_id : Option String
  location_type : Option String
  partial_match : Option Bool
  confidence : Option String
  deriving Repr, DecidableEq

/-- The `contact` sub-document. -/
structure Contact where
  website : Option String
  phone : Option String
  deriving Repr, DecidableEq

/-- A GeoJSON-style point value `{"type": "Point", "coordinates": [lng, lat]}`. -/
structure PointGeom where
  type : String
  coordinates : List ℚ
  deriving Repr, DecidableEq

/-- One `sources` provenance entry. -/
structure SourceEntry where
  source_name : String
  source_file : String
  source_row_hash : String
  needs_geocoding : Bool
  raw : List (String × Option String)
  deriving Repr, DecidableEq

/-- The canonical record produced by `normalize_row` (timestamps, which are
set by the upsert sink, are not part of the normalized document). -/
structure Doc where
  dedupe_key : String
  name : String
  datatype : String
  place_type : String
  subtype : String
  description : Option String
  address : Address
  location : Option PointGeom
  geocoding : Geocoding
  contact : Contact
  neighborhood_id : Option Nat
  neighborhood_name : Option String
  sources : List SourceEntry
  deriving Repr, DecidableEq

/-- The cleaned `name` field of a row. -/
def nameOf (row : RawRow) : Option String :=
  clean_text (get_field row ["LocationName", "Location Name", "Name"])

/-- The cleaned `address.line1` field of a row. -/
def line1Of (row : RawRow) : Option String :=
  clean_text (get_field row ["Address", "Street Address", "Location Address"])

/-- The cleaned raw city of a row. -/
def cityRawOf (row : RawRow) : Option String :=
  clean_text (get_field row ["City", "Town"])

/-- The title-cased city of a row. -/
def cityNormOf (row : RawRow) : Option String := title_case_city (cityRawOf row)

/-- The normalized zip of a row. -/
def zipOf (row : RawRow) : Option String :=
  normalize_zip (get_field row ["Zip", "ZIP", "Zip Code", "Postal Code"])

/-- Python truthy-`or` on optional strings (`x or y`: `None` and `""` are
falsy). -/
def pyOrStr (x y : Option String) : Option String :=
  match x with
  | some s => if s = "" then y else some s
  | none => y

/-- `city_for_key = city_norm or city_raw or "boston"`. -/
def cityForKey (row : RawRow) : String :=
  (pyOrStr (cityNormOf row) (pyOrStr (cityRawOf row) (some "boston"))).getD "boston"

/-- `zip_for_key = zip_code or ""`. -/
def zipForKey (row : RawRow) : String :=
  (pyOrStr (zipOf row) (some "")).getD ""

/-- The (pre-canonicalization) parts fed to `sha256_hash` for the dedupe key:
`(SOURCE_NAME, name, line1, city_for_key, state, zip_for_key)`. -/
def keyParts (row : RawRow) : List (Option String) :=
  [some SOURCE_NAME, nameOf row, line1Of row, some (cityForKey row), some "MA",
    some (zipForKey row)]

/-- The canonicalized dedupe-key inputs of a row: the six `keyParts` after
`canonicalize_key_part`.  `sha256_hash` joins exactly these with `"|"`. -/
def canonKeyInputs (row : RawRow) : List String :=
  (keyParts row).map canonicalize_key_part

/-- `ingest_farmers_markets.normalize_row` (lines 163-236): field resolution,
required-field validation, canonical record construction.  `ValidationError`
is rendered as `Except.error` with the exception message. -/
def normalize_row (row : RawRow) : Except String Doc :=
  let raw := row
  let city_raw := cityRawOf row
  let city_norm := cityNormOf row
  let zip_code := zipOf row
  let description := clean_text (get_field row ["Description"])
  let website := normalize_website (get_field row ["Website", "URL", "Url"])
  let phone := normalize_phone (get_field row ["Phone", "Phone Number", "Telephone"])
  match nameOf row with
  | none => .error "missing required field: name"
  | some name =>
    match line1Of row with
    | none => .error "missing required field: address.line1"
    | some line1 =>
      let dedupe_hash := sha256_hash
        [some SOURCE_NAME, some name, some line1, some (cityForKey row), some "MA",
          some (zipForKey row)]
      let dedupe_key := pyLower SOURCE_NAME ++ ":" ++ dedupe_hash
      let source_row_hash := sha256_hash
        [some SOURCE_NAME, some name, some line1,
          some ((pyOrStr city_raw (some "")).getD ""), some "MA", some (zipForKey row)]
      .ok
        { dedupe_key := dedupe_key
          name := name
          datatype := "farmers market"
          place_type := "farmers_market"
          subtype := derive_subtype name description
          description := description
          address :=
            { line1 := line1
              city_raw := city_raw
              city_norm := city_norm
              state := "MA"
              zip := zip_code
              formatted_address := none }
          location := none
          geocoding :=
            { provider := "google"
              status := "NOT_REQUESTED"
              place_id := none
              location_type := none
              partial_match := none
              confidence := none }
          contact := { website := website, phone := phone }
          neighborhood_id := none
          neighborhood_name := none
          sources :=
            [{ source_name := SOURCE_NAME
               source_file := SOURCE_FILE
               source_row_hash := source_row_hash
               needs_geocoding := true
               raw := raw }] }

/-! ### Geocoding client (`ingest_farmers_markets` lines 239-440)

The HTTP layer is an oracle `net : Nat → NetOutcome` giving the outcome of the
attempt with that index; the cache collection is a map
`String → Option CacheEntry` keyed by `geocode_query_hash`; limiter waits,
`time.sleep` backoffs and cache writes are recorded in `Effects`. -/

/-- `ingest_farmers_markets.build_geocode_query`. -/
def build_geocode_query (doc : Doc) : String :=
  let city := (pyOrStr doc.address.city_norm (pyOrStr doc.address.city_raw
    (some "Boston"))).getD "Boston"
  match doc.address.zip with
  | some z => doc.address.line1 ++ ", " ++ city ++ ", MA " ++ z ++ ", USA"
  | none => doc.address.line1 ++ ", " ++ city ++ ", MA, USA"

/-- `ingest_farmers_markets.geocode_query_hash`. -/
def geocode_query_hash (query : String) : String :=
  sha256_hash [some "google_geocode", some query, some "MA", some "US", some BOSTON_BOUNDS]

/-- Python truthiness of an optional string (`if not location_type`). -/
def pyTruthyStr (s : Option String) : Bool :=
  match s with
  | none => false
  | some v => v ≠ ""

/-- Python truthiness of an optional bool (`if not partial_match`). -/
def pyTruthyBool (b : Option Bool) : Bool :=
  match b with
  | none => false
  | some v => v

/-- `ingest_farmers_markets.compute_confidence` (lines 252-259). -/
def compute_confidence (location_type : Option String) (partial_match : Option Bool) :
    Option String :=
  if ! pyTruthyStr location_type then none
  else if location_type = some "ROOFTOP" && ! pyTruthyBool partial_match then some "high"
  else if (location_type = some "RANGE_INTERPOLATED" ||
      location_type = some "GEOMETRIC_CENTER") && ! pyTruthyBool partial_match then
    some "medium"
  else some "low"

/-- `geometry.location` of a provider result. -/
structure GLocation where
  lat : Option ℚ
  lng : Option ℚ
  deriving Repr, DecidableEq

/-- `geometry` of a provider result. -/
structure GGeometry where
  location : Option GLocation
  location_type : Option String
  deriving Repr, DecidableEq

/-- One entry of the provider's `results` list. -/
structure GResult where
  geometry : Option GGeometry
  partial_match : Option Bool
  place_id : Option String
  formatted_address : Option String
  deriving Repr, DecidableEq

/-- A decoded provider JSON payload. -/
structure Payload where
  status : Option String
  results : List GResult
  deriving Repr, DecidableEq

/-- The dict built by `_parse_google_result` (before `from_cache`/`query_hash`
are added by `geocode_address`). -/
structure ParsedResult where
  status : String
  place_id : Option String
  formatted_address : Option String
  location_type : Option String
  partial_match : Option Bool
  lat : Option ℚ
  lng : Option ℚ
  confidence : Option String
  deriving Repr, DecidableEq

/-- `ingest_farmers_markets._parse_google_result` (lines 262-291). -/
def _parse_google_result (status : String) (result : Option GResult) : ParsedResult :=
  match result with
  | none =>
    { status := status, place_id := none, formatted_address := none,
      location_type := none, partial_match := none, lat := none, lng := none,
      confidence := none }
  | some r =>
    if status ≠ "OK" then
      { status := status, place_id := none, formatted_address := none,
        location_type := none, partial_match := none, lat := none, lng := none,
        confidence := none }
    else
      let geometry := r.geometry.getD { location := none, location_type := none }
      let location := geometry.location.getD { lat := none, lng := none }
      { status := status
        place_id := r.place_id
        formatted_address := r.formatted_address
        location_type := geometry.location_type
        partial_match := r.partial_match
        lat := location.lat
        lng := location.lng
        confidence := compute_confidence geometry.location_type r.partial_match }

/-- The full result dict returned by `geocode_address`. -/
structure GeocodeFull extends ParsedResult where
  from_cache : Bool
  query_hash : String
  deriving Repr, DecidableEq

/-- A persistent geocode-cache document (all fields read with `.get`, hence
optional; `cached_at` is not modelled). -/
structure CacheEntry where
  place_id : Option String
  formatted_address : Option String
  location_type : Option String
  partial_match : Option Bool
  lat : Option ℚ
  lng : Option ℚ
  deriving Repr, DecidableEq

/-- Outcome of one `urllib.request.urlopen` attempt: an HTTP error status, a
generic transport failure (timeout, connection error, malformed JSON), or a
decoded payload. -/
inductive NetOutcome where
  | httpError (code : Nat)
  | transportFail
  | ok (payload : Payload)
  deriving Repr, DecidableEq

/-- Observable side effects of one `geocode_address` call. -/
structure Effects where
  networkCalls : Nat
  limiterWaits : Nat
  sleeps : List ℚ
  cacheWrites : List (String × ParsedResult)
  deriving Repr, DecidableEq

/-- No side effects. -/
def Effects.none : Effects :=
  { networkCalls := 0, limiterWaits := 0, sleeps := [], cacheWrites := [] }

/-- Effects of a single terminal attempt (one limiter wait, one call). -/
def Effects.oneCall (writes : List (String × ParsedResult)) : Effects :=
  { networkCalls := 1, limiterWaits := 1, sleeps := [], cacheWrites := writes }

/-- Effects of a retried attempt: this wait+call and sleep, then the rest. -/
def Effects.retryStep (backoff : ℚ) (rest : Effects) : Effects :=
  { networkCalls := rest.networkCalls + 1, limiterWaits := rest.limiterWaits + 1,
    sleeps := backoff :: rest.sleeps, cacheWrites := rest.cacheWrites }

/-- The all-null failure result with the given status. -/
def failResult (status : String) (qh : String) : GeocodeFull :=
  { status := status, place_id := none, formatted_address := none,
    location_type := none, partial_match := none, lat := none, lng := none,
    confidence := none, from_cache := false, query_hash := qh }

/-- HTTP status codes retried by the client. -/
def retryableCodes : List Nat := [429, 500, 502, 503, 504]

/-- The attempt loop of `geocode_address` (lines 330-414).  `fuel` is the
number of remaining loop iterations (`max_attempts - attempt`); the dead
fall-through after the `for` (lines 403-414) is the `fuel = 0` case. -/
def geocodeLoop (net : Nat → NetOutcome) (qh : String) :
    Nat → Nat → ℚ → GeocodeFull × Effects
  | 0, _, _ => (failResult "OVER_QUERY_LIMIT" qh, Effects.none)
  | fuel + 1, attempt, backoff =>
    let retry :=
      let r := geocodeLoop net qh fuel (attempt + 1) (backoff * 2)
      (r.1, Effects.retryStep backoff r.2)
    match net attempt with
    | .httpError code =>
      if code ∈ retryableCodes ∧ attempt < 4 then retry
      else (failResult ("HTTP_" ++ toString code) qh, Effects.oneCall [])
    | .transportFail =>
      if attempt < 4 then retry
      else (failResult "REQUEST_FAILED" qh, Effects.oneCall [])
    | .ok payload =>
      let status := payload.status.getD "UNKNOWN"
      if status = "OVER_QUERY_LIMIT" ∧ attempt < 4 then retry
      else
        let first := payload.results.head?
        let parsed := _parse_google_result status first
        let writes := if status = "OK" then [(qh, parsed)] else []
        ({ toParsedResult := parsed, from_cache := false, query_hash := qh },
          Effects.oneCall writes)

/-- The result returned on a cache hit (lines 304-316). -/
def cachedResult (e : CacheEntry) (qh : String) : GeocodeFull :=
  { status := "OK", place_id := e.place_id, formatted_address := e.formatted_address,
    location_type := e.location_type, partial_match := e.partial_match,
    lat := e.lat, lng := e.lng,
    confidence := compute_confidence e.location_type e.partial_match,
    from_cache := true, query_hash := qh }

/-- `ingest_farmers_markets.geocode_address` (lines 294-414): cache lookup,
then up to 5 rate-limited attempts with exponential backoff. -/
def geocode_address (query : String) (cache : String → Option CacheEntry)
    (net : Nat → NetOutcome) : GeocodeFull × Effects :=
  let qh := geocode_query_hash query
  match cache qh with
  | some e => (cachedResult e qh, Effects.none)
  | none => geocodeLoop net qh 5 0 (1 / 2)

/-- Bool form of `status != "OK"`. -/
def statusNotOk (status : String) : Bool := status ≠ "OK"

/-- `ingest_farmers_markets.apply_geocode_to_doc` (lines 417-440).  In Python
`doc["sources"][0]` requires a non-empty `sources` list (always true for
normalized rows); the empty case is mapped to the unchanged empty list. -/
def apply_geocode_to_doc (doc : Doc) (geocode : ParsedResult) (store_mode : String) : Doc :=
  { doc with
    geocoding :=
      { provider := "google"
        status := geocode.status
        place_id := geocode.place_id
        location_type := geocode.location_type
        partial_match := geocode.partial_match
        confidence := geocode.confidence }
    address := { doc.address with formatted_address := geocode.formatted_address }
    location :=
      if geocode.status = "OK" ∧ store_mode = STORE_MODE_COORDS then
        match geocode.lat, geocode.lng with
        | some la, some ln => some { type := "Point", coordinates := [ln, la] }
        | _, _ => none
      else none
    sources :=
      match doc.sources with
      | s :: rest => { s with needs_geocoding := statusNotOk geocode.status } :: rest
      | [] => [] }

/-! ### Neighborhood mapper (`parsers/neighborhood_mapper.py`)

Records handled by the mapper are generic Python dicts; they are modelled as
association lists of JSON-like values.  Coordinates are rationals. -/

/-- A JSON-like Python value. -/
inductive JValue where
  | null
  | bool (b : Bool)
  | num (q : ℚ)
  | str (s : String)
  | arr (items : List JValue)
  | obj (fields : List (String × JValue))

/-- A Python dict object. -/
abbrev JObj : Type := List (String × JValue)

/-- Python dict lookup (`obj.get(k)`). -/
def jGet (o : JObj) (k : String) : Option JValue :=
  (o.find? (fun kv => kv.1 = k)).map (·.2)

/-- Python dict assignment (`obj[k] = v`): replace the binding if present,
else append. -/
def setKey (o : JObj) (k : String) (v : JValue) : JObj :=
  match o with
  | [] => [(k, v)]
  | (k', v') :: rest => if k' = k then (k, v) :: rest else (k', v') :: setKey rest k v

/-- Python truthiness of a JSON value. -/
def jTruthy : JValue → Bool
  | .null => false
  | .bool b => b
  | .num q => decide (q ≠ 0)
  | .str s => s ≠ ""
  | .arr l => ! l.isEmpty
  | .obj l => ! l.isEmpty

/-- Python `x or y` over optional dict values (`obj.get(...) or obj.get(...)`). -/
def pyOrJ (x y : Option JValue) : Option JValue :=
  match x with
  | some v => if jTruthy v then some v else y
  | none => y

/-- Parse an optional sign; return the multiplier and the rest. -/
def parseSign (l : List Char) : Bool × List Char :=
  match l with
  | '-' :: t => (true, t)
  | '+' :: t => (false, t)
  | _ => (false, l)

/-- Numeric value of a digit run. -/
def digitsVal (l : List Char) : Nat :=
  l.foldl (fun acc c => acc * 10 + (c.toNat - 48)) 0

/-- Take/drop the leading digit run. -/
def splitDigits (l : List Char) : List Char × List Char :=
  (l.takeWhile Char.isDigit, l.dropWhile Char.isDigit)

/-- The optional exponent suffix of a float literal: applies `e±ddd` to `m`. -/
def parseExpPart (m : ℚ) : List Char → Option ℚ
  | [] => some m
  | c :: t =>
    if c = 'e' ∨ c = 'E' then
      let (neg, t1) := parseSign t
      let (ed, t2) := splitDigits t1
      if ed.isEmpty || ! t2.isEmpty then none
      else some (if neg then m / 10 ^ digitsVal ed else m * 10 ^ digitsVal ed)
    else none

/-- Python `float(text)` on a stripped string, for finite decimal/scientific
literals (the idealization to `ℚ` has no `inf`/`nan`; digit-group underscores
are not used by this data set and are not modelled). -/
def parsePyFloat (s : String) : Option ℚ :=
  let (neg, r0) := parseSign s.data
  let (ip, r1) := splitDigits r0
  let signedQ : ℚ → ℚ := fun q => if neg then -q else q
  match r1 with
  | '.' :: r2 =>
    let (fp, r3) := splitDigits r2
    if ip.isEmpty && fp.isEmpty then none
    else parseExpPart (signedQ ((digitsVal ip : ℚ) + (digitsVal fp : ℚ) / 10 ^ fp.length)) r3
  | _ =>
    if ip.isEmpty then none
    else parseExpPart (signedQ (digitsVal ip : ℚ)) r1

/-- `neighborhood_mapper._to_float` (lines 30-43).  Python `bool` is an `int`
subtype, so booleans coerce to `1.0`/`0.0`; lists/dicts stringify to text
that never parses as a float. -/
def _to_float : JValue → Option ℚ
  | .null => none
  | .bool b => some (if b then 1 else 0)
  | .num q => some q
  | .str s =>
    let text := pyStrip s
    if text = "" then none else parsePyFloat text
  | .arr _ => none
  | .obj _ => none

/-- `_to_float` applied to a `dict.get` result (`None` stays `None`). -/
def toFloatOpt : Option JValue → Option ℚ
  | none => none
  | some v => _to_float v

/-- The float tolerance `1e-12` (idealized). -/
def PIP_EPS : ℚ := 1 / 10 ^ 12

/-- `neighborhood_mapper._point_on_segment` (lines 46-61). -/
def _point_on_segment (lng lat : ℚ) (a b : ℚ × ℚ) : Bool :=
  let ax := a.1; let ay := a.2
  let bx := b.1; let by0 := b.2
  let squared_len := (bx - ax) * (bx - ax) + (by0 - ay) * (by0 - ay)
  if squared_len ≤ PIP_EPS then
    decide ((lng - ax) * (lng - ax) + (lat - ay) * (lat - ay) ≤ PIP_EPS)
  else
    let cross := (lng - ax) * (by0 - ay) - (lat - ay) * (bx - ax)
    if PIP_EPS < |cross| then false
    else
      let dot := (lng - ax) * (bx - ax) + (lat - ay) * (by0 - ay)
      if dot < -PIP_EPS then false
      else if PIP_EPS < dot - squared_len then false
      else true

/-- The edge loop of `_point_in_ring` (lines 69-84): edge-inclusion
short-circuits to `true`; otherwise even-odd ray-casting toggles `inside`. -/
def ringLoop (lng lat : ℚ) : List ((ℚ × ℚ) × (ℚ × ℚ)) → Bool → Bool
  | [], inside => inside
  | (a, b) :: rest, inside =>
    if _point_on_segment lng lat a b then true
    else
      let intersects := (decide (a.2 > lat) != decide (b.2 > lat)) &&
        decide (lng < (b.1 - a.1) * (lat - a.2) / (b.2 - a.2) + a.1)
      ringLoop lng lat rest (if intersects then ! inside else inside)

/-- `neighborhood_mapper._point_in_ring` (lines 64-84): rings of fewer than 4
vertices are rejected; edges pair `ring[i]` with `ring[(i+1) % len]`. -/
def _point_in_ring (lng lat : ℚ) (ring : List (ℚ × ℚ)) : Bool :=
  if ring.length < 4 then false
  else ringLoop lng lat (ring.zip (ring.rotate 1)) false

/-- The hole loop of `_point_in_polygon` (lines 93-95). -/
def holeLoop (lng lat : ℚ) : List (List (ℚ × ℚ)) → Bool
  | [] => true
  | h :: rest => if _point_in_ring lng lat h then false else holeLoop lng lat rest

/-- `neighborhood_mapper._point_in_polygon` (lines 87-96). -/
def _point_in_polygon (lng lat : ℚ) (coords : List (List (ℚ × ℚ))) : Bool :=
  match coords with
  | [] => false
  | outer :: holes =>
    if _point_in_ring lng lat outer then holeLoop lng lat holes else false

/-- Geometry coordinate payloads: rings of `[lng, lat]` vertex pairs, nested
one level deeper for multipolygons. -/
inductive GeoCoords where
  | poly (rings : List (List (ℚ × ℚ)))
  | multi (polys : List (List (List (ℚ × ℚ))))
  deriving Repr, DecidableEq

/-- A GeoJSON geometry dict as used by the mapper (`geometry.get("type")`,
`geometry.get("coordinates")`). -/
structure Geometry where
  type : Option String
  coordinates : Option GeoCoords
  deriving Repr, DecidableEq

/-- Emptiness of a coordinates payload (Python `if not coords`). -/
def GeoCoords.isEmptyCoords : GeoCoords → Bool
  | .poly p => p.isEmpty
  | .multi m => m.isEmpty

/-- `neighborhood_mapper.geometry_contains_point` (lines 99-108).  A type tag
inconsistent with the nesting depth of its coordinates would crash Python on
real data; such ill-formed geometries are mapped to `false`. -/
def geometry_contains_point (geometry : Geometry) (lng lat : ℚ) : Bool :=
  match geometry.coordinates with
  | none => false
  | some coords =>
    if coords.isEmptyCoords then false
    else
      match geometry.type, coords with
      | some "Polygon", .poly p => _point_in_polygon lng lat p
      | some "MultiPolygon", .multi m =>
        m.any (fun polygon => _point_in_polygon lng lat polygon)
      | _, _ => false

/-- `neighborhood_mapper.canonicalize_name`:
`re.sub(r"[^a-z0-9]+", " ", value.lower()).strip()`. -/
def canonicalize_name (value : String) : String :=
  String.intercalate " "
    ((splitRuns (fun c => ! (c.isLower || c.isDigit)) (pyLower value).data).map
      (fun w => (⟨w⟩ : String)))

/-- `neighborhood_mapper.NeighborhoodFeature`. -/
structure NeighborhoodFeature where
  neighborhood_id : Nat
  neighborhood_name : String
  geometry : Geometry
  deriving Repr, DecidableEq

/-- `neighborhood_mapper.load_population_ids` (lines 111-134) on the in-memory
`"Neighborhood"` column: first-seen names get ids 1, 2, …; blank rows and
canonicalized duplicates are skipped.  Entries are `(canonical key, id, name)`. -/
def load_population_ids (rows : List (Option String)) :
    Except String (List (String × Nat × String)) :=
  let mapping := rows.foldl
    (fun (acc : List (String × Nat × String)) v =>
      let name := pyStrip (v.getD "")
      if name = "" then acc
      else
        let key := canonicalize_name name
        if (acc.find? (fun e => e.1 = key)).isSome then acc
        else acc ++ [(key, acc.length + 1, name)]) []
  if mapping.isEmpty then .error "No neighborhoods loaded"
  else .ok mapping

/-- One raw GeoJSON feature as read by `load_neighborhood_features`:
`properties.name` and the geometry dict. -/
structure RawFeature where
  name : Option String
  geometry : Geometry
  deriving Repr, DecidableEq

/-- The `key=lambda x: x.neighborhood_id` sort order of the loader. -/
def featureLE (a b : NeighborhoodFeature) : Prop :=
  a.neighborhood_id ≤ b.neighborhood_id

instance : DecidableRel featureLE := fun _ _ => Nat.decLe _ _

instance : IsTotal NeighborhoodFeature featureLE :=
  ⟨fun _ _ => Nat.le_total _ _⟩

instance : IsTrans NeighborhoodFeature featureLE :=
  ⟨fun _ _ _ => Nat.le_trans⟩

/-- `neighborhood_mapper.load_neighborhood_features` (lines 137-180): join
features to population entries by canonicalized name, fail when a population
neighborhood has no boundary, and sort ascending by id (`resolved.sort`). -/
def load_neighborhood_features (feats : List RawFeature)
    (pm : List (String × Nat × String)) : Except String (List NeighborhoodFeature) :=
  let resolved := feats.foldl
    (fun (acc : List NeighborhoodFeature) f =>
      let name := pyStrip (f.name.getD "")
      if name = "" then acc
      else
        match pm.find? (fun e => e.1 = canonicalize_name name) with
        | none => acc
        | some e =>
          acc ++ [⟨e.2.1, e.2.2, f.geometry⟩]) []
  let seen := fun (key : String) => feats.any (fun f =>
    let name := pyStrip (f.name.getD "")
    name ≠ "" && canonicalize_name name = key)
  let missing := pm.filter (fun e => ! seen e.1)
  if ! missing.isEmpty then
    .error "Some neighborhoods from population CSV are missing in GeoJSON"
  else
    .ok (List.insertionSort featureLE resolved)

/-- `neighborhood_mapper.NeighborhoodMapper` after construction: its resolved,
id-sorted feature list. -/
structure NeighborhoodMapper where
  features : List NeighborhoodFeature

/-- First containing feature in list order (lines 195-198). -/
def findFeature (lng lat : ℚ) : List NeighborhoodFeature → Option (Nat × String)
  | [] => none
  | f :: rest =>
    if geometry_contains_point f.geometry lng lat then
      some (f.neighborhood_id, f.neighborhood_name)
    else findFeature lng lat rest

/-- `NeighborhoodMapper.find_for_point` (lines 194-198). -/
def NeighborhoodMapper.find_for_point (m : NeighborhoodMapper) (lng lat : ℚ) :
    Option (Nat × String) :=
  findFeature lng lat m.features

/-- `neighborhood_mapper.extract_lng_lat` (lines 220-232). -/
def extract_lng_lat (obj : JObj) : Option ℚ × Option ℚ :=
  let flat : Option ℚ × Option ℚ :=
    (toFloatOpt (pyOrJ (jGet obj "longitude") (jGet obj "lng")),
      toFloatOpt (pyOrJ (jGet obj "latitude") (jGet obj "lat")))
  match jGet obj "location" with
  | some (.obj location) =>
    match jGet location "coordinates" with
    | some (.arr (c0 :: c1 :: _)) =>
      match _to_float c0, _to_float c1 with
      | some lng, some lat => (some lng, some lat)
      | _, _ => flat
    | _ => flat
  | _ => flat

/-- `NeighborhoodMapper.assign_to_object` (lines 200-217). -/
def NeighborhoodMapper.assign_to_object (m : NeighborhoodMapper) (obj : JObj) : JObj :=
  match extract_lng_lat obj with
  | (some lng, some lat) =>
    match m.find_for_point lng lat with
    | none => setKey (setKey obj "neighborhood_id" .null) "neighborhood_name" .null
    | some (i, n) =>
      setKey (setKey obj "neighborhood_id" (.num i)) "neighborhood_name" (.str n)
  | _ => setKey (setKey obj "neighborhood_id" .null) "neighborhood_name" .null

/-- `neighborhood_mapper.assign_neighborhood` with an explicit mapper. -/
def assign_neighborhood (obj : JObj) (mapper : NeighborhoodMapper) : JObj :=
  mapper.assign_to_object obj

/-! ### Batch orchestrator (`ingest_farmers_markets.main`, lines 530-687)

File, MongoDB and network I/O become explicit inputs/outputs: the CSV is a
row list, geocoding is an oracle `String → GeocodeFull` (query ↦ result, i.e.
`geocode_address` with its cache/net arguments fixed), the upsert sink is an
oracle `Doc → Except String Bool` (`true` = inserted, `false` = updated,
`error` = exception), and the reject file is the returned reject list. -/

/-- `extract_lng_lat` specialized to the canonical record shape: the record's
`location` is either absent or a `Point` dict whose coordinates are floats,
and the record has no flat `longitude`/`lng` keys. -/
def docLngLat (doc : Doc) : Option ℚ × Option ℚ :=
  match doc.location with
  | some pt =>
    match pt.coordinates with
    | c0 :: c1 :: _ => (some c0, some c1)
    | _ => (none, none)
  | none => (none, none)

/-- `assign_neighborhood` on a canonical record (`main` line 631). -/
def assignNeighborhoodDoc (m : NeighborhoodMapper) (doc : Doc) : Doc :=
  match docLngLat doc with
  | (some lng, some lat) =>
    match m.find_for_point lng lat with
    | some p => { doc with neighborhood_id := some p.1, neighborhood_name := some p.2 }
    | none => { doc with neighborhood_id := none, neighborhood_name := none }
  | _ => { doc with neighborhood_id := none, neighborhood_name := none }

/-- The `--no-geocode` branch of the row loop (lines 606-616). -/
def docNoGeocode (doc : Doc) : Doc :=
  { doc with
    geocoding :=
      { provider := "google", status := "SKIPPED_NO_GEOCODE", place_id := none,
        location_type := none, partial_match := none, confidence := none }
    location := none
    sources :=
      match doc.sources with
      | s :: rest => { s with needs_geocoding := true } :: rest
      | [] => [] }

/-- Per-run counters (`stats` dict of `main`). -/
structure RunStats where
  rows_read : Nat
  rows_inserted : Nat
  rows_updated : Nat
  rows_skipped : Nat
  rows_rejected : Nat
  geocoded_ok : Nat
  deriving Repr, DecidableEq

/-- The zero counters. -/
def RunStats.init : RunStats :=
  { rows_read := 0, rows_inserted := 0, rows_updated := 0, rows_skipped := 0,
    rows_rejected := 0, geocoded_ok := 0 }

/-- One reject-log entry. -/
structure Reject where
  csv_line_number : Nat
  reason : String
  raw : List (String × Option String)
  deriving Repr, DecidableEq

/-- Result of a batch run: counters, the reject log, and whether the reject
file was written. -/
structure RunOutput where
  stats : RunStats
  rejects : List Reject
  rejectFileWritten : Bool
  deriving Repr, DecidableEq

/-- The raw payload stored in an upsert-failure reject:
`doc["sources"][0]["raw"]`. -/
def rawOfDoc (doc : Doc) : List (String × Option String) :=
  match doc.sources with
  | s :: _ => s.raw
  | [] => []

/-- The enrichment applied to one successfully normalized row
(geocode-or-skip, then neighborhood assignment; lines 606-631). -/
def enrichDoc (noGeocode : Bool) (geocoder : String → GeocodeFull) (storeMode : String)
    (mapper : NeighborhoodMapper) (doc : Doc) : Doc :=
  let d1 :=
    if noGeocode then docNoGeocode doc
    else apply_geocode_to_doc doc (geocoder (build_geocode_query doc)).toParsedResult storeMode
  assignNeighborhoodDoc mapper d1

/-- The row loop of `main` (lines 589-653).  `i` is the 0-based DataFrame
index; the CSV line number is `i + 4` (two skipped banner rows plus the
header).  Returns the final counters and reject list. -/
def batchLoop (noGeocode dryRun : Bool) (geocoder : String → GeocodeFull)
    (upsertFn : Doc → Except String Bool) (mapper : NeighborhoodMapper)
    (storeMode : String) : Nat → List RawRow → RunStats → List Reject →
    RunStats × List Reject
  | _, [], st, rj => (st, rj)
  | i, row :: rest, st, rj =>
    let st := { st with rows_read := st.rows_read + 1 }
    match normalize_row row with
    | .error e =>
      batchLoop noGeocode dryRun geocoder upsertFn mapper storeMode (i + 1) rest
        { st with
          rows_rejected := st.rows_rejected + 1
          rows_skipped := st.rows_skipped + 1 }
        (rj ++ [{ csv_line_number := i + 4, reason := e, raw := row }])
    | .ok doc =>
      let gStatus : Option String :=
        if noGeocode then none
        else some (geocoder (build_geocode_query doc)).status
      let doc2 := enrichDoc noGeocode geocoder storeMode mapper doc
      let st := if gStatus = some "OK" then
          { st with geocoded_ok := st.geocoded_ok + 1 } else st
      if dryRun then
        batchLoop noGeocode dryRun geocoder upsertFn mapper storeMode (i + 1) rest st rj
      else
        match upsertFn doc2 with
        | .ok inserted =>
          batchLoop noGeocode dryRun geocoder upsertFn mapper storeMode (i + 1) rest
            (if inserted then { st with rows_inserted := st.rows_inserted + 1 }
             else { st with rows_updated := st.rows_updated + 1 }) rj
        | .error e =>
          batchLoop noGeocode dryRun geocoder upsertFn mapper storeMode (i + 1) rest
            { st with
              rows_skipped := st.rows_skipped + 1
              rows_rejected := st.rows_rejected + 1 }
            (rj ++ [{ csv_line_number := i + 4
                      reason := "mongo_upsert_error: " ++ e
                      raw := rawOfDoc doc2 }])

/-- A full batch run: the row loop followed by the unconditional reject-file
write (lines 655-657 are outside every conditional). -/
def runBatch (noGeocode dryRun : Bool) (geocoder : String → GeocodeFull)
    (upsertFn : Doc → Except String Bool) (mapper : NeighborhoodMapper)
    (storeMode : String) (rows : List RawRow) : RunOutput :=
  let r := batchLoop noGeocode dryRun geocoder upsertFn mapper storeMode 0 rows
    RunStats.init []
  { stats := r.1, rejects := r.2, rejectFileWritten := true }

/-- The reject entry (if any) that row `row` at DataFrame index `i` produces:
a validation reject when normalization fails, an upsert reject when the sink
fails on the enriched document, nothing otherwise. -/
def expectedReject (noGeocode dryRun : Bool) (geocoder : String → GeocodeFull)
    (upsertFn : Doc → Except String Bool) (mapper : NeighborhoodMapper)
    (storeMode : String) (i : Nat) (row : RawRow) : Option Reject :=
  match normalize_row row with
  | .error e => some { csv_line_number := i + 4, reason := e, raw := row }
  | .ok doc =>
    if dryRun then none
    else
      let doc2 := enrichDoc noGeocode geocoder storeMode mapper doc
      match upsertFn doc2 with
      | .ok _ => none
      | .error e =>
        some { csv_line_number := i + 4
               reason := "mongo_upsert_error: " ++ e
               raw := rawOfDoc doc2 }

/-- All reject entries a batch produces, in row order. -/
def expectedRejects (noGeocode dryRun : Bool) (geocoder : String → GeocodeFull)
    (upsertFn : Doc → Except String Bool) (mapper : NeighborhoodMapper)
    (storeMode : String) : Nat → List RawRow → List Reject
  | _, [] => []
  | i, row :: rest =>
    (expectedReject noGeocode dryRun geocoder upsertFn mapper storeMode i row).toList ++
      expectedRejects noGeocode dryRun geocoder upsertFn mapper storeMode (i + 1) rest

/-! ## Theorems -/

/-- Reading back the key just written. -/
theorem jGet_setKey_same (o : JObj) (k : String) (v : JValue) :
    jGet (setKey o k v) k = some v := by
  induction o with
  | nil => simp [jGet, setKey, List.find?]
  | cons kv rest ih =>
    by_cases h : kv.1 = k
    · simp [jGet, setKey, h, List.find?]
    · simpa [jGet, setKey, h, List.find?] using ih

/-- Writing one key leaves every other key's binding unchanged. -/
theorem jGet_setKey_other (o : JObj) (k : String) (v : JValue) (k' : String)
    (h : k' ≠ k) : jGet (setKey o k v) k' = jGet o k' := by
  induction o with
  | nil => simp [jGet, setKey, List.find?, Ne.symm h]
  | cons kv rest ih =>
    obtain ⟨k0, v0⟩ := kv
    by_cases hk : k0 = k
    · subst hk
      simp [jGet, setKey, List.find?, Ne.symm h]
    · by_cases hk' : k0 = k'
      · simp [jGet, setKey, List.find?, hk, hk', h]
      · simp only [setKey, if_neg hk]
        simpa [jGet, List.find?, hk'] using ih

/-- C5 counterexample: the empty string is a non-null `location_type` that is
none of `ROOFTOP`/`RANGE_INTERPOLATED`/`GEOMETRIC_CENTER`, so the claim
demands `"low"`, but the code's falsy test maps it to `None`. -/
theorem compute_confidence_empty_location_type :
    compute_confidence (some "") (some false) = none ∧
    (some "" : Option String) ≠ none ∧
    ("" : String) ≠ "ROOFTOP" ∧ ("" : String) ≠ "RANGE_INTERPOLATED" ∧
    ("" : String) ≠ "GEOMETRIC_CENTER" := by
  refine ⟨rfl, by decide, by decide, by decide, by decide⟩

/-- C5 (amended: "non-null" reads "present and non-empty", since Python's
falsy test also sends the empty string to `None`): `ROOFTOP` with no partial
match is `high`; `RANGE_INTERPOLATED`/`GEOMETRIC_CENTER` with no partial match
is `medium`; any other truthy location type, or any partial match, is `low`;
an absent (or empty) location type gives `none`. -/
theorem compute_confidence_spec (lt : Option String) (pm : Option Bool) :
    (pyTruthyStr lt = false → compute_confidence lt pm = none) ∧
    (lt = some "ROOFTOP" → pyTruthyBool pm = false →
      compute_confidence lt pm = some "high") ∧
    ((lt = some "RANGE_INTERPOLATED" ∨ lt = some "GEOMETRIC_CENTER") →
      pyTruthyBool pm = false → compute_confidence lt pm = some "medium") ∧
    (pyTruthyStr lt = true → lt ≠ some "ROOFTOP" → lt ≠ some "RANGE_INTERPOLATED" →
      lt ≠ some "GEOMETRIC_CENTER" → compute_confidence lt pm = some "low") ∧
    (pyTruthyStr lt = true → pyTruthyBool pm = true →
      compute_confidence lt pm = some "low") := by
  refine ⟨?_, ?_, ?_, ?_, ?_⟩
  · intro h; simp [compute_confidence, h]
  · intro h1 h2; subst h1; simp [compute_confidence, pyTruthyStr, h2]
  · rintro (h1 | h1) h2 <;> subst h1 <;>
      simp [compute_confidence, pyTruthyStr, h2]
  · intro h h1 h2 h3; simp [compute_confidence, h, h1, h2, h3]
  · intro h h1; simp [compute_confidence, h, h1]

/-- Witness for `compute_confidence_spec` at concrete inputs. -/
theorem compute_confidence_spec_witness :
    compute_confidence (some "ROOFTOP") (some false) = some "high" ∧
    compute_confidence (some "GEOMETRIC_CENTER") none = some "medium" ∧
    compute_confidence none (some true) = none ∧
    compute_confidence (some "PLUS_CODE") none = some "low" ∧
    compute_confidence (some "ROOFTOP") (some true) = some "low" :=
  ⟨(compute_confidence_spec (some "ROOFTOP") (some false)).2.1 rfl rfl,
   (compute_confidence_spec (some "GEOMETRIC_CENTER") none).2.2.1 (Or.inr rfl) rfl,
   (compute_confidence_spec none (some true)).1 rfl,
   (compute_confidence_spec (some "PLUS_CODE") none).2.2.2.1 (by decide) (by decide)
     (by decide) (by decide),
   (compute_confidence_spec (some "ROOFTOP") (some true)).2.2.2.2 (by decide) rfl⟩

/-- The hole loop is the conjunction of "not inside any hole ring". -/
theorem holeLoop_eq_all (lng lat : ℚ) (holes : List (List (ℚ × ℚ))) :
    holeLoop lng lat holes = holes.all (fun hole => ! _point_in_ring lng lat hole) := by
  induction holes with
  | nil => rfl
  | cons hd tl ih =>
    by_cases hb : _point_in_ring lng lat hd
    · simp [holeLoop, hb]
    · simp [holeLoop, hb, ih]

/-- C7: a point is contained in a `Polygon` iff it is inside the outer ring
and outside every hole ring; in particular the center of a square hole inside
a square outer ring is inside both rings and not contained by the polygon. -/
theorem point_in_polygon_hole_exclusion :
    (∀ (lng lat : ℚ) (outer : List (ℚ × ℚ)) (holes : List (List (ℚ × ℚ))),
      _point_in_polygon lng lat (outer :: holes) =
        (_point_in_ring lng lat outer &&
          holes.all (fun hole => ! _point_in_ring lng lat hole))) ∧
    (_point_in_ring 2 2 [(0, 0), (4, 0), (4, 4), (0, 4), (0, 0)] = true ∧
     _point_in_ring 2 2 [(1, 1), (3, 1), (3, 3), (1, 3), (1, 1)] = true ∧
     _point_in_polygon 2 2
       [[(0, 0), (4, 0), (4, 4), (0, 4), (0, 0)],
        [(1, 1), (3, 1), (3, 3), (1, 3), (1, 1)]] = false) := by
  constructor
  · intro lng lat outer holes
    by_cases hb : _point_in_ring lng lat outer
    · simp [_point_in_polygon, hb, holeLoop_eq_all]
    · simp [_point_in_polygon, hb]
  · refine ⟨?_, ?_, ?_⟩ <;> with_unfolding_all decide

/-- C8 counterexample: `"abc"` is non-empty and has no digits; the code
returns the cleaned raw string itself, not the tagged
`"digits:...;raw:..."` fallback the claim promises. -/
theorem normalize_phone_digitless_counterexample :
    normalize_phone (some "abc") = some "abc" ∧
    some "abc" ≠ some ("digits:" ++ "" ++ ";raw:" ++ "abc") := by
  exact ⟨rfl, by decide⟩

/-- C8 (amended: the tagged fallback is produced only when at least one digit
was extracted; a non-blank input with no digits at all is returned cleaned but
otherwise unchanged): strips non-digits, 10 digits ↦ `+1`+digits, 11 digits
starting with `1` ↦ `+`+digits, other digit-bearing inputs ↦ tagged fallback
preserving digits and raw, null/blank ↦ null. -/
theorem normalize_phone_spec (v : Option String) :
    (clean_text v = none → normalize_phone v = none) ∧
    (∀ raw, clean_text v = some raw →
      ((digitsOf raw).data.length = 10 →
        normalize_phone v = some ("+1" ++ digitsOf raw)) ∧
      ((digitsOf raw).data.length = 11 → (digitsOf raw).data.head? = some '1' →
        normalize_phone v = some ("+" ++ digitsOf raw)) ∧
      ((digitsOf raw).data.length ≠ 10 →
        ¬((digitsOf raw).data.length = 11 ∧ (digitsOf raw).data.head? = some '1') →
        digitsOf raw ≠ "" →
        normalize_phone v = some ("digits:" ++ digitsOf raw ++ ";raw:" ++ raw)) ∧
      (digitsOf raw = "" → normalize_phone v = some raw)) := by
  constructor
  · intro h; simp [normalize_phone, h]
  · intro raw hraw
    refine ⟨?_, ?_, ?_, ?_⟩
    · intro h10
      simp only [normalize_phone, hraw]
      rw [if_pos h10]
    · intro h11 hh
      simp only [normalize_phone, hraw]
      rw [if_neg (by omega), if_pos ⟨h11, hh⟩]
    · intro h10 h11 hne
      simp only [normalize_phone, hraw]
      rw [if_neg h10, if_neg h11, if_pos hne]
    · intro h0
      simp only [normalize_phone, hraw]
      rw [if_neg (show ¬(digitsOf raw).data.length = 10 by rw [h0]; decide),
        if_neg (show ¬((digitsOf raw).data.length = 11 ∧
          (digitsOf raw).data.head? = some '1') by rw [h0]; decide),
        if_neg (show ¬digitsOf raw ≠ "" by simp [h0])]

/-- Witness for `normalize_phone_spec`: the two spec examples and null input. -/
theorem normalize_phone_spec_witness :
    normalize_phone (some "617-555-0100") = some ("+1" ++ digitsOf "617-555-0100") ∧
    normalize_phone (some "1-617-555-0100") = some ("+" ++ digitsOf "1-617-555-0100") ∧
    normalize_phone none = none :=
  ⟨((normalize_phone_spec (some "617-555-0100")).2 "617-555-0100" rfl).1 (by decide),
   (((normalize_phone_spec (some "1-617-555-0100")).2 "1-617-555-0100" rfl).2.1
     (by decide) (by decide)),
   (normalize_phone_spec none).1 rfl⟩

/-- The doubling backoff schedule starting at `b`. -/
def backoffSeq (b : ℚ) : Nat → List ℚ
  | 0 => []
  | n + 1 => b :: backoffSeq (b * 2) n

/-- The attempt loop performs at most `fuel` network calls. -/
theorem geocodeLoop_calls_le (net : Nat → NetOutcome) (qh : String) :
    ∀ (fuel attempt : Nat) (backoff : ℚ),
      (geocodeLoop net qh fuel attempt backoff).2.networkCalls ≤ fuel := by
  intro fuel
  induction fuel with
  | zero => intro attempt backoff; simp [geocodeLoop, Effects.none]
  | succ f ih =>
    intro attempt backoff
    rcases hn : net attempt with code | _ | payload <;> simp only [geocodeLoop, hn]
    · by_cases hc : code ∈ retryableCodes ∧ attempt < 4
      · rw [if_pos hc]
        simpa [Effects.retryStep] using ih (attempt + 1) (backoff * 2)
      · rw [if_neg hc]; simp [Effects.oneCall]
    · by_cases hc : attempt < 4
      · rw [if_pos hc]
        simpa [Effects.retryStep] using ih (attempt + 1) (backoff * 2)
      · rw [if_neg hc]; simp [Effects.oneCall]
    · by_cases hc : payload.status.getD "UNKNOWN" = "OVER_QUERY_LIMIT" ∧ attempt < 4
      · rw [if_pos hc]
        simpa [Effects.retryStep] using ih (attempt + 1) (backoff * 2)
      · rw [if_neg hc]; simp [Effects.oneCall]

/-- The sleeps of the attempt loop are an initial segment of the doubling
backoff schedule. -/
theorem geocodeLoop_sleeps_doubling (net : Nat → NetOutcome) (qh : String) :
    ∀ (fuel attempt : Nat) (backoff : ℚ), attempt + fuel = 5 →
      (geocodeLoop net qh fuel attempt backoff).2.sleeps <+:
        backoffSeq backoff (fuel - 1) := by
  intro fuel
  induction fuel with
  | zero =>
    intro attempt backoff _
    simp [geocodeLoop, Effects.none]
  | succ f ih =>
    intro attempt backoff hinv
    have hcons : ∀ l : List ℚ, l <+: backoffSeq (backoff * 2) (f - 1) → attempt < 4 →
        backoff :: l <+: backoffSeq backoff ((f + 1) - 1) := by
      intro l hl h4
      obtain ⟨t, ht⟩ := hl
      have hf : f = (f - 1) + 1 := by omega
      refine ⟨t, ?_⟩
      rw [Nat.add_sub_cancel, hf]
      simp [backoffSeq, ht]
    rcases hn : net attempt with code | _ | payload <;> simp only [geocodeLoop, hn]
    · by_cases hc : code ∈ retryableCodes ∧ attempt < 4
      · rw [if_pos hc]
        exact hcons _ (ih (attempt + 1) (backoff * 2) (by omega)) hc.2
      · rw [if_neg hc]; simp [Effects.oneCall]
    · by_cases hc : attempt < 4
      · rw [if_pos hc]
        exact hcons _ (ih (attempt + 1) (backoff * 2) (by omega)) hc
      · rw [if_neg hc]; simp [Effects.oneCall]
    · by_cases hc : payload.status.getD "UNKNOWN" = "OVER_QUERY_LIMIT" ∧ attempt < 4
      · rw [if_pos hc]
        exact hcons _ (ih (attempt + 1) (backoff * 2) (by omega)) hc.2
      · rw [if_neg hc]; simp [Effects.oneCall]

/-- The schedule starting at `1/2` is `0.5, 1, 2, 4`. -/
theorem backoffSeq_half : backoffSeq (1 / 2) 4 = ([1 / 2, 1, 2, 4] : List ℚ) := by
  with_unfolding_all decide

/-- The provider result used in the C3 retry scenario. -/
def scenarioResult : GResult :=
  { geometry := some
      { location := some { lat := some 42, lng := some (-71) }
        location_type := some "ROOFTOP" }
    partial_match := none
    place_id := some "p1"
    formatted_address := some "10 Warren St, Roxbury, MA 02119, USA" }

/-- The provider payload used in the C3 retry scenario. -/
def scenarioPayload : Payload :=
  { status := some "OK", results := [scenarioResult] }

/-- A provider failing with HTTP 503 on attempts 1-4 and succeeding on
attempt 5. -/
def net503 : Nat → NetOutcome :=
  fun i => if i < 4 then .httpError 503 else .ok scenarioPayload

/-- C3: the client makes at most 5 attempts; its sleeps are a prefix of the
doubling schedule `0.5, 1, 2, 4`; a non-retryable HTTP error on the first
attempt terminates immediately (one call, no sleeps) with status
`"HTTP_<code>"`; a retryable HTTP code, a transport failure, and provider
status `OVER_QUERY_LIMIT` each retry (a recorded 0.5 sleep, then the loop
continues on attempt 2 with doubled backoff); and the 503-until-attempt-5
scenario succeeds after exactly 4 doubling backoff waits. -/
theorem geocode_retry_policy :
    (∀ (q : String) (cache : String → Option CacheEntry) (net : Nat → NetOutcome),
      (geocode_address q cache net).2.networkCalls ≤ 5 ∧
      (geocode_address q cache net).2.sleeps <+: ([1 / 2, 1, 2, 4] : List ℚ)) ∧
    (∀ (q : String) (net : Nat → NetOutcome) (code : Nat),
      code ∉ retryableCodes → net 0 = .httpError code →
      geocode_address q (fun _ => none) net =
        (failResult ("HTTP_" ++ toString code) (geocode_query_hash q),
          Effects.oneCall [])) ∧
    (∀ (q : String) (net : Nat → NetOutcome) (code : Nat),
      code ∈ retryableCodes → net 0 = .httpError code →
      geocode_address q (fun _ => none) net =
        ((geocodeLoop net (geocode_query_hash q) 4 1 (1 / 2 * 2)).1,
          Effects.retryStep (1 / 2)
            (geocodeLoop net (geocode_query_hash q) 4 1 (1 / 2 * 2)).2)) ∧
    (∀ (q : String) (net : Nat → NetOutcome),
      net 0 = .transportFail →
      geocode_address q (fun _ => none) net =
        ((geocodeLoop net (geocode_query_hash q) 4 1 (1 / 2 * 2)).1,
          Effects.retryStep (1 / 2)
            (geocodeLoop net (geocode_query_hash q) 4 1 (1 / 2 * 2)).2)) ∧
    (∀ (q : String) (net : Nat → NetOutcome) (payload : Payload),
      payload.status.getD "UNKNOWN" = "OVER_QUERY_LIMIT" → net 0 = .ok payload →
      geocode_address q (fun _ => none) net =
        ((geocodeLoop net (geocode_query_hash q) 4 1 (1 / 2 * 2)).1,
          Effects.retryStep (1 / 2)
            (geocodeLoop net (geocode_query_hash q) 4 1 (1 / 2 * 2)).2)) ∧
    ((geocode_address "10 Warren St, Roxbury, MA 02119, USA" (fun _ => none)
        net503).1.status = "OK" ∧
     (geocode_address "10 Warren St, Roxbury, MA 02119, USA" (fun _ => none)
        net503).1.lat = some 42 ∧
     (geocode_address "10 Warren St, Roxbury, MA 02119, USA" (fun _ => none)
        net503).1.lng = some (-71) ∧
     (geocode_address "10 Warren St, Roxbury, MA 02119, USA" (fun _ => none)
        net503).2.networkCalls = 5 ∧
     (geocode_address "10 Warren St, Roxbury, MA 02119, USA" (fun _ => none)
        net503).2.limiterWaits = 5 ∧
     (geocode_address "10 Warren St, Roxbury, MA 02119, USA" (fun _ => none)
        net503).2.sleeps = ([1 / 2, 1, 2, 4] : List ℚ)) := by
  refine ⟨?_, ?_, ?_, ?_, ?_, rfl, rfl, rfl, rfl, rfl, by with_unfolding_all decide⟩
  · intro q cache net
    simp only [geocode_address]
    rcases cache (geocode_query_hash q) with _ | e
    · simp only []
      refine ⟨geocodeLoop_calls_le net _ 5 0 (1 / 2), ?_⟩
      have := geocodeLoop_sleeps_doubling net (geocode_query_hash q) 5 0 (1 / 2) rfl
      rwa [show (5 : Nat) - 1 = 4 from rfl, backoffSeq_half] at this
    · simp [Effects.none]
  · intro q net code hcode hn
    simp only [geocode_address]
    show geocodeLoop net (geocode_query_hash q) (4 + 1) 0 (1 / 2) = _
    simp only [geocodeLoop, hn]
    rw [if_neg (fun hc => hcode hc.1)]
  · intro q net code hcode hn
    simp only [geocode_address]
    show geocodeLoop net (geocode_query_hash q) (4 + 1) 0 (1 / 2) = _
    simp only [geocodeLoop, hn]
    rw [if_pos ⟨hcode, by omega⟩]
  · intro q net hn
    simp only [geocode_address]
    show geocodeLoop net (geocode_query_hash q) (4 + 1) 0 (1 / 2) = _
    simp only [geocodeLoop, hn]
    rw [if_pos (by omega)]
  · intro q net payload hst hn
    simp only [geocode_address]
    show geocodeLoop net (geocode_query_hash q) (4 + 1) 0 (1 / 2) = _
    simp only [geocodeLoop, hn]
    rw [if_pos ⟨hst, by omega⟩]

/-- Witness for `geocode_retry_policy` at concrete inputs. -/
theorem geocode_retry_policy_witness :
    ((geocode_address "q" (fun _ => none) (fun _ => .transportFail)).2.networkCalls ≤ 5 ∧
     (geocode_address "q" (fun _ => none)
       (fun _ => .transportFail)).2.sleeps <+: ([1 / 2, 1, 2, 4] : List ℚ)) ∧
    geocode_address "q" (fun _ => none) (fun _ => .httpError 404) =
      (failResult "HTTP_404" (geocode_query_hash "q"), Effects.oneCall []) ∧
    geocode_address "q" (fun _ => none) (fun _ => .transportFail) =
      ((geocodeLoop (fun _ => .transportFail) (geocode_query_hash "q") 4 1 (1 / 2 * 2)).1,
        Effects.retryStep (1 / 2)
          (geocodeLoop (fun _ => .transportFail) (geocode_query_hash "q") 4 1
            (1 / 2 * 2)).2) :=
  ⟨(geocode_retry_policy.1 "q" (fun _ => none) (fun _ => .transportFail)),
   (geocode_retry_policy.2.1 "q" (fun _ => .httpError 404) 404 (by decide) rfl),
   (geocode_retry_policy.2.2.2.1 "q" (fun _ => .transportFail) rfl)⟩

/-- A concrete normalized record used in concrete evaluations. -/
def demoDoc : Doc :=
  { dedupe_key := "massgrown:demo"
    name := "Dudley Town Common Farmers Market"
    datatype := "farmers market"
    place_type := "farmers_market"
    subtype := "farmers_market"
    description := none
    address :=
      { line1 := "10 Warren St", city_raw := some "Roxbury", city_norm := some "Roxbury",
        state := "MA", zip := some "02119", formatted_address := none }
    location := none
    geocoding :=
      { provider := "google", status := "NOT_REQUESTED", place_id := none,
        location_type := none, partial_match := none, confidence := none }
    contact := { website := none, phone := none }
    neighborhood_id := none
    neighborhood_name := none
    sources :=
      [{ source_name := "MassGrown", source_file := "farmers_market.csv",
         source_row_hash := "", needs_geocoding := true, raw := [] }] }

/-- C2 counterexample: a provider response with status `"OK"` and an empty
result list parses to a coordinate-free result, and applying it leaves
`location` null yet sets `sources[0].needs_geocoding` to `false` — the claim
demands `true` for every result without usable coordinates. -/
theorem apply_geocode_ok_empty_results_counterexample :
    (_parse_google_result "OK" none).lat = none ∧
    (_parse_google_result "OK" none).lng = none ∧
    (_parse_google_result "OK" none).status = "OK" ∧
    (apply_geocode_to_doc demoDoc (_parse_google_result "OK" none)
      STORE_MODE_COORDS).location = none ∧
    ((apply_geocode_to_doc demoDoc (_parse_google_result "OK" none)
      STORE_MODE_COORDS).sources.map (fun s => s.needs_geocoding)) = [false] := by
  refine ⟨rfl, rfl, rfl, by decide, by decide⟩

/-- C2 (amended: `needs_geocoding` tracks exactly `status ≠ "OK"`; when the
status is `"OK"` but coordinates are absent, `location` stays null while
`needs_geocoding` still becomes `false`): with coordinate storage enabled, a
result with status `"OK"` and coordinates sets `location` to the Point,
`formatted_address` and the geocoding metadata are always copied (the failure
status is preserved in `geocoding.status`), any non-`"OK"` status leaves
`location` null, and `sources[0].needs_geocoding` becomes `status ≠ "OK"`. -/
theorem apply_geocode_to_doc_spec (doc : Doc) (g : ParsedResult) (s0 : SourceEntry)
    (rest : List SourceEntry) (hs : doc.sources = s0 :: rest) :
    (apply_geocode_to_doc doc g STORE_MODE_COORDS).geocoding =
      { provider := "google", status := g.status, place_id := g.place_id,
        location_type := g.location_type, partial_match := g.partial_match,
        confidence := g.confidence } ∧
    (apply_geocode_to_doc doc g STORE_MODE_COORDS).address.formatted_address =
      g.formatted_address ∧
    (∀ la ln, g.status = "OK" → g.lat = some la → g.lng = some ln →
      (apply_geocode_to_doc doc g STORE_MODE_COORDS).location =
        some { type := "Point", coordinates := [ln, la] }) ∧
    (g.status ≠ "OK" → (apply_geocode_to_doc doc g STORE_MODE_COORDS).location = none) ∧
    (apply_geocode_to_doc doc g STORE_MODE_COORDS).sources =
      { s0 with needs_geocoding := statusNotOk g.status } :: rest ∧
    (statusNotOk g.status = true ↔ g.status ≠ "OK") := by
  refine ⟨rfl, rfl, ?_, ?_, ?_, ?_⟩
  · intro la ln hok hla hln
    simp [apply_geocode_to_doc, hok, hla, hln, STORE_MODE_COORDS]
  · intro hne
    simp [apply_geocode_to_doc, hne]
  · simp [apply_geocode_to_doc, hs]
  · simp [statusNotOk]

/-- Witness for `apply_geocode_to_doc_spec` on a concrete success result. -/
theorem apply_geocode_to_doc_spec_witness :
    (apply_geocode_to_doc demoDoc
      { status := "OK", place_id := some "p1", formatted_address := some "10 Warren St, MA",
        location_type := some "ROOFTOP", partial_match := none, lat := some 42,
        lng := some (-71), confidence := some "high" } STORE_MODE_COORDS).location =
      some { type := "Point", coordinates := [-71, 42] } ∧
    (apply_geocode_to_doc demoDoc
      { status := "ZERO_RESULTS", place_id := none, formatted_address := none,
        location_type := none, partial_match := none, lat := none,
        lng := none, confidence := none } STORE_MODE_COORDS).location = none :=
  ⟨(apply_geocode_to_doc_spec demoDoc _ _ [] rfl).2.2.1 42 (-71) rfl rfl rfl,
   (apply_geocode_to_doc_spec demoDoc _ _ [] rfl).2.2.2.1 (by decide)⟩

/-- C4: a cache hit short-circuits `geocode_address`: no network call, no
limiter wait, no sleep, no cache write; the result is `from_cache := true`
with status `"OK"`, the stored coordinates/place id/formatted address, and a
confidence recomputed from the cached `location_type`/`partial_match`. -/
theorem geocode_cache_short_circuit (query : String) (cache : String → Option CacheEntry)
    (net : Nat → NetOutcome) (e : CacheEntry)
    (hc : cache (geocode_query_hash query) = some e) :
    geocode_address query cache net =
      (cachedResult e (geocode_query_hash query), Effects.none) ∧
    (cachedResult e (geocode_query_hash query)).from_cache = true ∧
    (cachedResult e (geocode_query_hash query)).status = "OK" ∧
    (cachedResult e (geocode_query_hash query)).lat = e.lat ∧
    (cachedResult e (geocode_query_hash query)).lng = e.lng ∧
    (cachedResult e (geocode_query_hash query)).place_id = e.place_id ∧
    (cachedResult e (geocode_query_hash query)).formatted_address = e.formatted_address ∧
    (cachedResult e (geocode_query_hash query)).confidence =
      compute_confidence e.location_type e.partial_match ∧
    Effects.none.networkCalls = 0 ∧ Effects.none.limiterWaits = 0 ∧
    Effects.none.sleeps = ([] : List ℚ) := by
  refine ⟨?_, rfl, rfl, rfl, rfl, rfl, rfl, rfl, rfl, rfl, rfl⟩
  simp [geocode_address, hc]

/-- A concrete cache entry. -/
def demoCacheEntry : CacheEntry :=
  { place_id := some "p9"
    formatted_address := some "f"
    location_type := some "ROOFTOP"
    partial_match := some false
    lat := some (421 / 10)
    lng := some (-71) }

/-- Witness for `geocode_cache_short_circuit`: a pre-populated cache. -/
theorem geocode_cache_short_circuit_witness :
    geocode_address "10 Warren St, Roxbury, MA 02119, USA"
      (fun _ => some demoCacheEntry) (fun _ => .httpError 500) =
      (cachedResult demoCacheEntry
        (geocode_query_hash "10 Warren St, Roxbury, MA 02119, USA"), Effects.none) :=
  (geocode_cache_short_circuit _ _ _ _ rfl).1

/-- C10: `assign_to_object` always leaves both `neighborhood_id` and
`neighborhood_name` present and paired — the matched feature's id and name
when coordinates extract and a boundary contains the point, both null
otherwise — and changes no other key of the record. -/
theorem assign_to_object_invariant (m : NeighborhoodMapper) (obj : JObj) :
    (∀ k, k ≠ "neighborhood_id" → k ≠ "neighborhood_name" →
      jGet (m.assign_to_object obj) k = jGet obj k) ∧
    (match extract_lng_lat obj with
     | (some lng, some lat) =>
       (match m.find_for_point lng lat with
        | some p =>
          jGet (m.assign_to_object obj) "neighborhood_id" = some (.num p.1) ∧
          jGet (m.assign_to_object obj) "neighborhood_name" = some (.str p.2)
        | none =>
          jGet (m.assign_to_object obj) "neighborhood_id" = some .null ∧
          jGet (m.assign_to_object obj) "neighborhood_name" = some .null)
     | _ =>
       jGet (m.assign_to_object obj) "neighborhood_id" = some .null ∧
       jGet (m.assign_to_object obj) "neighborhood_name" = some .null) := by
  have hset : ∀ (v1 v2 : JValue),
      jGet (setKey (setKey obj "neighborhood_id" v1) "neighborhood_name" v2)
        "neighborhood_id" = some v1 ∧
      jGet (setKey (setKey obj "neighborhood_id" v1) "neighborhood_name" v2)
        "neighborhood_name" = some v2 := by
    intro v1 v2
    refine ⟨?_, jGet_setKey_same _ _ _⟩
    rw [jGet_setKey_other _ _ _ _ (by decide), jGet_setKey_same]
  have hother : ∀ (v1 v2 : JValue) (k : String), k ≠ "neighborhood_id" →
      k ≠ "neighborhood_name" →
      jGet (setKey (setKey obj "neighborhood_id" v1) "neighborhood_name" v2) k =
        jGet obj k := by
    intro v1 v2 k hk1 hk2
    rw [jGet_setKey_other _ _ _ _ hk2, jGet_setKey_other _ _ _ _ hk1]
  rcases hx : extract_lng_lat obj with ⟨l1, l2⟩
  unfold NeighborhoodMapper.assign_to_object
  rw [hx]
  rcases l1 with _ | lng
  · rcases l2 with _ | lat <;>
      exact ⟨fun k hk1 hk2 => hother _ _ k hk1 hk2, hset _ _⟩
  · rcases l2 with _ | lat
    · exact ⟨fun k hk1 hk2 => hother _ _ k hk1 hk2, hset _ _⟩
    · simp only []
      rcases hf : m.find_for_point lng lat with _ | p <;>
        exact ⟨fun k hk1 hk2 => hother _ _ k hk1 hk2, hset _ _⟩

/-- The loader returns features sorted ascending by id. -/
theorem load_features_sorted (feats : List RawFeature)
    (pm : List (String × Nat × String)) (features : List NeighborhoodFeature)
    (hf : load_neighborhood_features feats pm = .ok features) :
    features.Sorted featureLE := by
  simp only [load_neighborhood_features] at hf
  split at hf
  · exact absurd hf (by simp)
  · rw [← Except.ok.inj hf]
    exact List.sorted_insertionSort featureLE _

/-- A successful `findFeature` returns the data of a containing feature. -/
theorem findFeature_mem (lng lat : ℚ) (fs : List NeighborhoodFeature)
    (p : Nat × String) (h : findFeature lng lat fs = some p) :
    ∃ f ∈ fs, geometry_contains_point f.geometry lng lat = true ∧
      p = (f.neighborhood_id, f.neighborhood_name) := by
  induction fs with
  | nil => simp [findFeature] at h
  | cons g rest ih =>
    by_cases hg : geometry_contains_point g.geometry lng lat = true
    · refine ⟨g, by simp, hg, ?_⟩
      simp only [findFeature, if_pos hg, Option.some.injEq] at h
      exact h.symm
    · simp only [findFeature, if_neg hg] at h
      obtain ⟨f, hf, hc, hp⟩ := ih h
      exact ⟨f, by simp [hf], hc, hp⟩

/-- On an id-sorted list, the first containing feature has the least id among
all containing features. -/
theorem findFeature_min (lng lat : ℚ) :
    ∀ fs : List NeighborhoodFeature, fs.Sorted featureLE →
      ∀ p, findFeature lng lat fs = some p →
        ∀ f ∈ fs, geometry_contains_point f.geometry lng lat = true →
          p.1 ≤ f.neighborhood_id := by
  intro fs
  induction fs with
  | nil => intro _ p h; simp [findFeature] at h
  | cons g rest ih =>
    intro hsorted p h f hf hc
    rw [List.sorted_cons] at hsorted
    by_cases hg : geometry_contains_point g.geometry lng lat = true
    · simp only [findFeature, if_pos hg, Option.some.injEq] at h
      subst h
      rcases List.mem_cons.mp hf with hfg | hfrest
      · subst hfg; exact Nat.le_refl _
      · exact hsorted.1 f hfrest
    · simp only [findFeature, if_neg hg] at h
      rcases List.mem_cons.mp hf with hfg | hfrest
      · subst hfg; exact absurd hc hg
      · exact ih hsorted.2 p h f hfrest hc

/-- If no feature contains the point, `findFeature` reports no match. -/
theorem findFeature_none (lng lat : ℚ) (fs : List NeighborhoodFeature)
    (h : ∀ f ∈ fs, geometry_contains_point f.geometry lng lat = false) :
    findFeature lng lat fs = none := by
  induction fs with
  | nil => rfl
  | cons g rest ih =>
    have hg : geometry_contains_point g.geometry lng lat = false := h g (by simp)
    simp only [findFeature]
    rw [if_neg (by simp [hg])]
    exact ih (fun f hf => h f (by simp [hf]))

/-- C6: for a mapper whose features come from the loaders, the lookup tests
boundaries in ascending id order and the first (least-id) containing boundary
wins, deterministically; a point contained by no boundary yields no match and
`assign_to_object` then sets both `neighborhood_id` and `neighborhood_name`
to null on the record instead of failing. -/
theorem find_for_point_order_and_no_match
    (popRows : List (Option String)) (feats : List RawFeature)
    (pm : List (String × Nat × String)) (features : List NeighborhoodFeature)
    (hp : load_population_ids popRows = .ok pm)
    (hf : load_neighborhood_features feats pm = .ok features)
    (lng lat : ℚ) :
    (NeighborhoodMapper.mk features).find_for_point lng lat =
      (NeighborhoodMapper.mk features).find_for_point lng lat ∧
    (∀ p, (NeighborhoodMapper.mk features).find_for_point lng lat = some p →
      (∃ f ∈ features, geometry_contains_point f.geometry lng lat = true ∧
        p = (f.neighborhood_id, f.neighborhood_name)) ∧
      ∀ f ∈ features, geometry_contains_point f.geometry lng lat = true →
        p.1 ≤ f.neighborhood_id) ∧
    ((∀ f ∈ features, geometry_contains_point f.geometry lng lat = false) →
      (NeighborhoodMapper.mk features).find_for_point lng lat = none ∧
      ∀ obj : JObj, extract_lng_lat obj = (some lng, some lat) →
        jGet ((NeighborhoodMapper.mk features).assign_to_object obj)
          "neighborhood_id" = some .null ∧
        jGet ((NeighborhoodMapper.mk features).assign_to_object obj)
          "neighborhood_name" = some .null) := by
  have hsorted : features.Sorted featureLE := load_features_sorted feats pm features hf
  refine ⟨rfl, ?_, ?_⟩
  · intro p hfind
    exact ⟨findFeature_mem lng lat features p hfind,
      findFeature_min lng lat features hsorted p hfind⟩
  · intro hnone
    have hfind : findFeature lng lat features = none :=
      findFeature_none lng lat features hnone
    refine ⟨hfind, ?_⟩
    intro obj hobj
    unfold NeighborhoodMapper.assign_to_object
    rw [hobj]
    simp only [NeighborhoodMapper.find_for_point, hfind]
    exact ⟨by rw [jGet_setKey_other _ _ _ _ (by decide), jGet_setKey_same],
      jGet_setKey_same _ _ _⟩

/-- A geometry with an empty coordinates payload (contains nothing). -/
def demoGeom : Geometry := { type := some "Polygon", coordinates := some (.poly []) }

/-- The raw feature for the C6 witness. -/
def demoRawFeat : RawFeature := { name := some "Testville", geometry := demoGeom }

/-- The resolved feature for the C6 witness. -/
def demoFeat : NeighborhoodFeature :=
  { neighborhood_id := 1, neighborhood_name := "Testville", geometry := demoGeom }

/-- A record with flat coordinates for the C6 witness. -/
def demoObj : JObj := [("longitude", .num 10), ("latitude", .num 20)]

/-- Witness for `find_for_point_order_and_no_match`: a loader-built mapper, a
point contained by no boundary, and a record that gets null neighborhoods. -/
theorem find_for_point_order_witness :
    (NeighborhoodMapper.mk [demoFeat]).find_for_point 10 20 = none ∧
    jGet ((NeighborhoodMapper.mk [demoFeat]).assign_to_object demoObj)
      "neighborhood_id" = some .null ∧
    jGet ((NeighborhoodMapper.mk [demoFeat]).assign_to_object demoObj)
      "neighborhood_name" = some .null := by
  have w := find_for_point_order_and_no_match [some "Testville"] [demoRawFeat]
    [("testville", 1, "Testville")] [demoFeat] rfl rfl 10 20
  have hno : ∀ f ∈ [demoFeat], geometry_contains_point f.geometry 10 20 = false := by
    decide
  obtain ⟨hfind, hassign⟩ := w.2.2 hno
  exact ⟨hfind, (hassign demoObj rfl).1, (hassign demoObj rfl).2⟩

/-- The dedupe key of an accepted row, as a function of its canonicalized key
inputs only. -/
theorem normalize_row_key_formula (row : RawRow) (h : (normalize_row row).isOk = true) :
    (normalize_row row).map (fun d => d.dedupe_key) =
      .ok (pyLower SOURCE_NAME ++ ":" ++
        sha256HexOfString (String.intercalate "|" (canonKeyInputs row))) := by
  rcases hn : nameOf row with _ | name
  · exfalso
    simp [normalize_row, hn, Except.isOk, Except.toBool] at h
  · rcases hl : line1Of row with _ | line1
    · exfalso
      simp [normalize_row, hn, hl, Except.isOk, Except.toBool] at h
    · simp [normalize_row, hn, hl, sha256_hash, canonKeyInputs, keyParts, Except.map]

/-- C1: normalization is deterministic, and for rows accepted by
`normalize_row` the dedupe key is a pure function of the six canonicalized
key inputs (source name, canonicalized name, line1, city-for-key, state,
zip-for-key): two accepted rows agreeing on those inputs get equal keys. -/
theorem normalize_row_deterministic_key (r1 r2 : RawRow)
    (h1 : (normalize_row r1).isOk = true) (h2 : (normalize_row r2).isOk = true)
    (hk : canonKeyInputs r1 = canonKeyInputs r2) :
    normalize_row r1 = normalize_row r1 ∧
    (normalize_row r1).map (fun d => d.dedupe_key) =
      (normalize_row r2).map (fun d => d.dedupe_key) := by
  refine ⟨rfl, ?_⟩
  rw [normalize_row_key_formula r1 h1, normalize_row_key_formula r2 h2, hk]

/-- First concrete row for the C1 witness. -/
def demoRow1 : RawRow :=
  [("LocationName", some "Test Market"), ("Address", some "1 Main St"),
   ("City", some "boston")]

/-- Second concrete row for the C1 witness: different alias headers, spacing,
and casing, same canonicalized key inputs. -/
def demoRow2 : RawRow :=
  [("Name", some "  test  MARKET"), ("Address", some "1  main   st"),
   ("Town", some "Boston"), ("Zip", none)]

/-- Witness for `normalize_row_deterministic_key`: two concretely different
raw rows with equal canonicalized key inputs get the same dedupe key. -/
theorem normalize_row_deterministic_key_witness :
    (normalize_row demoRow1).isOk = true ∧ (normalize_row demoRow2).isOk = true ∧
    canonKeyInputs demoRow1 = canonKeyInputs demoRow2 ∧ demoRow1 ≠ demoRow2 ∧
    (normalize_row demoRow1).map (fun d => d.dedupe_key) =
      (normalize_row demoRow2).map (fun d => d.dedupe_key) :=
  ⟨rfl, rfl, by decide, by decide,
    (normalize_row_deterministic_key demoRow1 demoRow2 rfl rfl (by decide)).2⟩

/-- Projections through an `if` whose branches agree. -/
theorem ite_proj_eq {α β : Type} (c : Prop) [Decidable c] (A B : α) (f : α → β) (v : β)
    (hA : f A = v) (hB : f B = v) : f (if c then A else B) = v := by
  by_cases h : c
  · rw [if_pos h]; exact hA
  · rw [if_neg h]; exact hB

/-- The row loop's final counters and rejects, relative to its accumulator:
every row is read, and the reject list grows by exactly the expected
validation/upsert rejects, with the rejected/skipped counters tracking it. -/
theorem batchLoop_spec (noGeo dry : Bool) (geocoder : String → GeocodeFull)
    (upsertFn : Doc → Except String Bool) (mapper : NeighborhoodMapper)
    (storeMode : String) :
    ∀ (rows : List RawRow) (i : Nat) (st : RunStats) (rj : List Reject),
      (batchLoop noGeo dry geocoder upsertFn mapper storeMode i rows st rj).1.rows_read =
        st.rows_read + rows.length ∧
      (batchLoop noGeo dry geocoder upsertFn mapper storeMode i rows st rj).2 =
        rj ++ expectedRejects noGeo dry geocoder upsertFn mapper storeMode i rows ∧
      (batchLoop noGeo dry geocoder upsertFn mapper storeMode i rows st rj).1.rows_rejected =
        st.rows_rejected +
          (expectedRejects noGeo dry geocoder upsertFn mapper storeMode i rows).length ∧
      (batchLoop noGeo dry geocoder upsertFn mapper storeMode i rows st rj).1.rows_skipped =
        st.rows_skipped +
          (expectedRejects noGeo dry geocoder upsertFn mapper storeMode i rows).length := by
  intro rows
  induction rows with
  | nil =>
    intro i st rj
    simp [batchLoop, expectedRejects]
  | cons row rest ih =>
    intro i st rj
    have key : ∀ (SA : RunStats) (rjNew add : List Reject),
        rjNew = rj ++ add →
        SA.rows_read = st.rows_read + 1 →
        SA.rows_rejected = st.rows_rejected + add.length →
        SA.rows_skipped = st.rows_skipped + add.length →
        (batchLoop noGeo dry geocoder upsertFn mapper storeMode (i + 1) rest SA
          rjNew).1.rows_read = st.rows_read + (row :: rest).length ∧
        (batchLoop noGeo dry geocoder upsertFn mapper storeMode (i + 1) rest SA
          rjNew).2 = rj ++
          (add ++ expectedRejects noGeo dry geocoder upsertFn mapper storeMode (i + 1) rest) ∧
        (batchLoop noGeo dry geocoder upsertFn mapper storeMode (i + 1) rest SA
          rjNew).1.rows_rejected = st.rows_rejected +
          (add ++ expectedRejects noGeo dry geocoder upsertFn mapper storeMode (i + 1) rest).length ∧
        (batchLoop noGeo dry geocoder upsertFn mapper storeMode (i + 1) rest SA
          rjNew).1.rows_skipped = st.rows_skipped +
          (add ++ expectedRejects noGeo dry geocoder upsertFn mapper storeMode (i + 1) rest).length := by
      intro SA rjNew add hrj h1 h2 h3
      subst hrj
      obtain ⟨ha, hb, hc, hd⟩ := ih (i + 1) SA (rj ++ add)
      refine ⟨?_, ?_, ?_, ?_⟩
      · rw [ha, h1]; simp [List.length_cons]; omega
      · rw [hb, List.append_assoc]
      · rw [hc, h2]; simp [List.length_append]; omega
      · rw [hd, h3]; simp [List.length_append]; omega
    simp only [batchLoop, expectedRejects, expectedReject]
    rcases hn : normalize_row row with e | doc <;> simp only [hn, Option.toList]
    · exact key _ _ [{ csv_line_number := i + 4, reason := e, raw := row }] rfl rfl rfl rfl
    · by_cases hdry : dry = true
      · subst hdry
        simp only [eq_self_iff_true, if_true]
        exact key _ _ [] (by simp)
          (ite_proj_eq _ _ _ RunStats.rows_read _ rfl rfl)
          (ite_proj_eq _ _ _ RunStats.rows_rejected _ rfl rfl)
          (ite_proj_eq _ _ _ RunStats.rows_skipped _ rfl rfl)
      · replace hdry : dry = false := by
          cases dry
          · rfl
          · exact absurd rfl hdry
        subst hdry
        simp only [Bool.false_eq_true, if_false]
        rcases hu : upsertFn (enrichDoc noGeo geocoder storeMode mapper doc) with
          eu | inserted <;> simp only [hu, Option.toList]
        · exact key _ _
            [{ csv_line_number := i + 4
               reason := "mongo_upsert_error: " ++ eu
               raw := rawOfDoc (enrichDoc noGeo geocoder storeMode mapper doc) }]
            rfl (ite_proj_eq _ _ _ RunStats.rows_read _ rfl rfl)
            (congrArg (fun n => n + 1) (ite_proj_eq _ _ _ RunStats.rows_rejected _ rfl rfl))
            (congrArg (fun n => n + 1) (ite_proj_eq _ _ _ RunStats.rows_skipped _ rfl rfl))
        · exact key _ _ [] (by simp)
            (ite_proj_eq _ _ _ RunStats.rows_read _
              (ite_proj_eq _ _ _ RunStats.rows_read _ rfl rfl)
              (ite_proj_eq _ _ _ RunStats.rows_read _ rfl rfl))
            (ite_proj_eq _ _ _ RunStats.rows_rejected _
              (ite_proj_eq _ _ _ RunStats.rows_rejected _ rfl rfl)
              (ite_proj_eq _ _ _ RunStats.rows_rejected _ rfl rfl))
            (ite_proj_eq _ _ _ RunStats.rows_skipped _
              (ite_proj_eq _ _ _ RunStats.rows_skipped _ rfl rfl)
              (ite_proj_eq _ _ _ RunStats.rows_skipped _ rfl rfl))

/-- Each normalization failure contributes its reject entry, at its own line
number, to the expected reject list. -/
theorem expectedRejects_mem (noGeo dry : Bool) (geocoder : String → GeocodeFull)
    (upsertFn : Doc → Except String Bool) (mapper : NeighborhoodMapper)
    (storeMode : String) :
    ∀ (rows : List RawRow) (i j : Nat) (row : RawRow) (e : String),
      rows.get? j = some row → normalize_row row = .error e →
      ({ csv_line_number := (i + j) + 4, reason := e, raw := row } : Reject) ∈
        expectedRejects noGeo dry geocoder upsertFn mapper storeMode i rows := by
  intro rows
  induction rows with
  | nil => intro i j row e hj; simp at hj
  | cons r rest ih =>
    intro i j row e hj hne
    cases j with
    | zero =>
      obtain rfl : r = row := by simpa using hj
      simp [expectedRejects, expectedReject, hne]
    | succ j' =>
      have hmem := ih (i + 1) j' row e (by simpa using hj) hne
      have harith : (i + (j' + 1)) + 4 = ((i + 1) + j') + 4 := by omega
      rw [harith]
      exact List.mem_append_right _ hmem

/-- C9: rejected rows are row-local: every row failing normalization lands in
the reject log with its CSV line number, reason and raw payload, the
rejected and skipped counters track the reject log, every row of the batch is
still read (no abort), and the reject file is written even when empty. -/
theorem batch_rejects_row_local (noGeo dry : Bool) (geocoder : String → GeocodeFull)
    (upsertFn : Doc → Except String Bool) (mapper : NeighborhoodMapper)
    (storeMode : String) (rows : List RawRow) :
    (runBatch noGeo dry geocoder upsertFn mapper storeMode rows).rejectFileWritten = true ∧
    (runBatch noGeo dry geocoder upsertFn mapper storeMode rows).stats.rows_read =
      rows.length ∧
    (runBatch noGeo dry geocoder upsertFn mapper storeMode rows).rejects =
      expectedRejects noGeo dry geocoder upsertFn mapper storeMode 0 rows ∧
    (runBatch noGeo dry geocoder upsertFn mapper storeMode rows).stats.rows_rejected =
      (runBatch noGeo dry geocoder upsertFn mapper storeMode rows).rejects.length ∧
    (runBatch noGeo dry geocoder upsertFn mapper storeMode rows).stats.rows_skipped =
      (runBatch noGeo dry geocoder upsertFn mapper storeMode rows).rejects.length ∧
    (∀ (i : Nat) (row : RawRow) (e : String),
      rows.get? i = some row → normalize_row row = .error e →
      ({ csv_line_number := i + 4, reason := e, raw := row } : Reject) ∈
        (runBatch noGeo dry geocoder upsertFn mapper storeMode rows).rejects) := by
  obtain ⟨ha, hb, hc, hd⟩ :=
    batchLoop_spec noGeo dry geocoder upsertFn mapper storeMode rows 0 RunStats.init []
  refine ⟨rfl, ?_, ?_, ?_, ?_, ?_⟩
  · simpa [runBatch, RunStats.init] using ha
  · simpa [runBatch] using hb
  · have := hc
    simp only [runBatch]
    rw [hb, hc]
    simp [RunStats.init]
  · simp only [runBatch]
    rw [hb, hd]
    simp [RunStats.init]
  · intro i row e hi hne
    have hmem := expectedRejects_mem noGeo dry geocoder upsertFn mapper storeMode rows
      0 i row e hi hne
    simp only [runBatch]
    rw [hb]
    simp only [List.nil_append]
    simpa using hmem

/-- The always-failing geocoder used in the C9 witness. -/
def demoGeocoder : String → GeocodeFull := fun _ => failResult "ZERO_RESULTS" ""

/-- Witness for `batch_rejects_row_local`: a one-row batch whose row is
missing its name is rejected at CSV line 4 and the batch completes. -/
theorem batch_rejects_row_local_witness :
    ({ csv_line_number := 0 + 4, reason := "missing required field: name",
       raw := [("Name", (none : Option String))] } : Reject) ∈
      (runBatch true true demoGeocoder (fun _ => .ok true) (NeighborhoodMapper.mk [])
        STORE_MODE_COORDS [[("Name", none)]]).rejects ∧
    (runBatch true true demoGeocoder (fun _ => .ok true) (NeighborhoodMapper.mk [])
      STORE_MODE_COORDS [[("Name", none)]]).stats.rows_read = 1 :=
  ⟨(batch_rejects_row_local true true demoGeocoder (fun _ => .ok true)
      (NeighborhoodMapper.mk []) STORE_MODE_COORDS [[("Name", none)]]).2.2.2.2.2
      0 [("Name", none)] "missing required field: name" rfl rfl,
   (batch_rejects_row_local true true demoGeocoder (fun _ => .ok true)
      (NeighborhoodMapper.mk []) STORE_MODE_COORDS [[("Name", none)]]).2.1⟩

/-- Witness for `assign_to_object_invariant` on a concrete record. -/
theorem assign_to_object_invariant_witness :
    jGet ((NeighborhoodMapper.mk []).assign_to_object [("x", .num 7)]) "x" =
      some (.num 7) ∧
    jGet ((NeighborhoodMapper.mk []).assign_to_object [("x", .num 7)])
      "neighborhood_id" = some .null ∧
    jGet ((NeighborhoodMapper.mk []).assign_to_object [("x", .num 7)])
      "neighborhood_name" = some .null := by
  have w := assign_to_object_invariant (NeighborhoodMapper.mk []) [("x", .num 7)]
  exact ⟨(w.1 "x" (by decide) (by decide)).trans rfl, w.2.1, w.2.2⟩

end Equitable
